import Mathlib

/-!
A verification development for the Feedback Co-Pilot server (`server.js`).

The development shallowly embeds the request-handling pipeline of the
Express server: the upload endpoint (`POST /api/upload`), the Google
Docs/Slides link resolver (`extractGoogleDocId`,
`fetchGoogleDocsContent`), the default prompt generator
(`generateDefaultPrompt`) and the custom-template substitution logic of
the analyze endpoint (`POST /api/analyze`).

Strings are modelled as Lean `String`s (lists of characters); the
JavaScript string/regex operations used by the server are modelled
character-exactly:

* `String.prototype.replace(regexp, str)` with a global literal pattern,
  including the `$`-substitution semantics of replacement strings
  (`$$`, `$&`, a dollar followed by a backquote, a dollar followed by a
  quote); patterns used by the server contain no capture groups, so
  `$<digit>` stays literal, exactly as in ECMA-262 GetSubstitution;
* the two criteria-collapsing regexes, which use greedy backtracking
  `\s*` (the ECMAScript whitespace class);
* `path.extname` (Node.js semantics, including its dotfile edge cases),
  `Buffer.toString('base64')`, `String.prototype.trim`.

Network effects (`fetch`) and file parsing (`pdf-parse`) are passed in
as oracle functions; the resolver model additionally returns the list of
URLs it requested, which is the observable needed to state the
fallback/no-fallback claims.
-/

/-- Characters of the ECMAScript whitespace class `\s` (also the set
trimmed by `String.prototype.trim`): tab, LF, VT, FF, CR, space, NBSP,
Ogham space, the U+2000..U+200A spaces, LS, PS, NNBSP, MMSP, ideographic
space, and the BOM. -/
def isJsWs (c : Char) : Bool :=
  c == '\t' || c == '\n' || c == Char.ofNat 11 || c == Char.ofNat 12 ||
  c == Char.ofNat 13 || c == ' ' || c == Char.ofNat 160 ||
  c == Char.ofNat 0x1680 ||
  (Char.ofNat 0x2000 ≤ c && c ≤ Char.ofNat 0x200A) ||
  c == Char.ofNat 0x2028 || c == Char.ofNat 0x2029 ||
  c == Char.ofNat 0x202F || c == Char.ofNat 0x205F ||
  c == Char.ofNat 0x3000 || c == Char.ofNat 0xFEFF

/-- ECMAScript `\w`: ASCII letters, digits and underscore. -/
def isWordChar (c : Char) : Bool :=
  ('a' ≤ c && c ≤ 'z') || ('A' ≤ c && c ≤ 'Z') || ('0' ≤ c && c ≤ '9') || c == '_'

/-- The character class `[a-zA-Z0-9-_]` of the Google document-ID regexes. -/
def isIdChar (c : Char) : Bool :=
  ('a' ≤ c && c ≤ 'z') || ('A' ≤ c && c ≤ 'Z') || ('0' ≤ c && c ≤ '9') ||
  c == '-' || c == '_'

/-- ECMAScript line terminators, the characters excluded by `.`. -/
def isLineTerm (c : Char) : Bool :=
  c == '\n' || c == Char.ofNat 13 || c == Char.ofNat 0x2028 || c == Char.ofNat 0x2029

/-- Boolean test that `p` is a prefix of `s`. -/
def hasPrefixL : List Char → List Char → Bool
  | [], _ => true
  | _ :: _, [] => false
  | p :: ps, c :: cs => p == c && hasPrefixL ps cs

/-- Boolean substring test: does `pat` occur (contiguously) in `s`? -/
def containsSub (pat : List Char) : List Char → Bool
  | [] => hasPrefixL pat []
  | c :: cs => hasPrefixL pat (c :: cs) || containsSub pat cs

/-- Substring test on `String`s: `occursIn s pat` is the model of
JavaScript `s.includes(pat)`. -/
def occursIn (s pat : String) : Bool :=
  containsSub pat.data s.data

/-- ECMA-262 GetSubstitution for a replacement string, specialised to the
patterns the server uses (literal patterns with no capture groups):
`$$` emits a dollar, `$&` the matched text, dollar-backquote the part of
the subject before the match, dollar-quote the part after it; any other
use of `$` (including `$<digit>`, since there are no capture groups) is
literal. -/
def expandRepl (matched before after : List Char) : List Char → List Char
  | [] => []
  | [c] => [c]
  | c :: d :: r =>
    if c == '$' then
      if d == '$' then '$' :: expandRepl matched before after r
      else if d == '&' then matched ++ expandRepl matched before after r
      else if d == Char.ofNat 96 then before ++ expandRepl matched before after r
      else if d == Char.ofNat 39 then after ++ expandRepl matched before after r
      else c :: expandRepl matched before after (d :: r)
    else c :: expandRepl matched before after (d :: r)

/-- Worker for `jsReplaceAll`: `orig` is the whole subject (fixed, for the
dollar-backquote/dollar-quote expansions), `i` the current position. The
first argument is recursion fuel: every step consumes at least one
character of the remaining subject, so any fuel of at least the subject
length makes the function total and fuel-independent; it is kept
structural so that proofs can evaluate it. -/
def replAllAux (pat repl orig : List Char) : Nat → Nat → List Char → List Char
  | 0, _, _ => []
  | _ + 1, _, [] => []
  | fuel + 1, i, c :: cs =>
    if !pat.isEmpty && hasPrefixL pat (c :: cs) then
      expandRepl pat (orig.take i) (orig.drop (i + pat.length)) repl ++
        replAllAux pat repl orig fuel (i + pat.length) (List.drop (pat.length - 1) cs)
    else c :: replAllAux pat repl orig fuel (i + 1) cs

/-- Model of `s.replace(/pat/g, repl)` for a literal pattern `pat` with no
capture groups: every occurrence is replaced, scanning left to right and
resuming after each match, with `$`-expansion of the replacement. -/
def jsReplaceAll (s pat repl : String) : String :=
  ⟨replAllAux pat.data repl.data s.data (s.data.length + 1) 0 s.data⟩

/-- Plain global literal replacement (no `$`-expansion); this is what
`jsReplaceAll` degenerates to when the replacement contains no dollar.
Fueled like `replAllAux`. -/
def plainReplAux (pat repl : List Char) : Nat → List Char → List Char
  | 0, _ => []
  | _ + 1, [] => []
  | fuel + 1, c :: cs =>
    if !pat.isEmpty && hasPrefixL pat (c :: cs) then
      repl ++ plainReplAux pat repl fuel (List.drop (pat.length - 1) cs)
    else c :: plainReplAux pat repl fuel cs

/-- Plain global literal replacement on `String`s. -/
def plainReplaceAll (s pat repl : String) : String :=
  ⟨plainReplAux pat.data repl.data (s.data.length + 1) s.data⟩

/-- Worker modelling `s.replace(/(pat)/, ins + '$1')` for a literal,
group-wrapped pattern and an insertion text with no dollar: the insertion
is placed immediately before the first occurrence of `pat` (if any), and
the rest of the string is unchanged. -/
def insBeforeAux (pat ins : List Char) : List Char → List Char
  | [] => []
  | c :: cs =>
    if !pat.isEmpty && hasPrefixL pat (c :: cs) then ins ++ c :: cs
    else c :: insBeforeAux pat ins cs

/-- Insertion before the first occurrence, on `String`s. -/
def insertBeforeFirst (s pat ins : String) : String :=
  ⟨insBeforeAux pat.data ins.data s.data⟩

/-- Tokens of the two criteria-collapsing regexes: a literal chunk, or a
greedy `\s*`. -/
inductive RTok where
  | lit (cs : List Char)
  | starWs
deriving Repr, DecidableEq

/-- Backtracking matcher for a token list against a prefix of `s`, with
its greedy-star helper fused in: `matchToks (fuel) toks s` returns the
number of characters consumed by the leftmost-greedy match of `toks` at
the start of `s`, exactly as the ECMAScript engine computes it. The
`.star j` continuation tries consuming `j` whitespace characters, then
backtracks downwards. Every recursive call either consumes a pattern
token or decrements a star counter bounded by the remaining subject
length, so the call depth is at most `(toks.length + 1) * (s.length + 2)`
and any such fuel makes the function total and fuel-independent.
-/
def matchToks : Nat → List RTok → List Char → Option Nat
  | 0, _, _ => none
  | _ + 1, [], _ => some 0
  | fuel + 1, .lit l :: ps, s =>
    if hasPrefixL l s then (matchToks fuel ps (s.drop l.length)).map (· + l.length)
    else none
  | fuel + 1, .starWs :: ps, s => tryFrom fuel ps s ((s.takeWhile isJsWs).length)
where
  /-- Greedy star with backtracking: try consuming `j` whitespace
  characters (starting from the maximal run), decreasing on failure. -/
  tryFrom : Nat → List RTok → List Char → Nat → Option Nat
  | 0, _, _, _ => none
  | fuel + 1, ps, s, 0 => matchToks fuel ps s
  | fuel + 1, ps, s, j + 1 =>
    match matchToks fuel ps (s.drop (j + 1)) with
    | some m => some (j + 1 + m)
    | none => tryFrom fuel ps s j

/-- Adequate fuel for `matchToks` on token list `toks` and subject `s`. -/
def matchFuel (toks : List RTok) (s : List Char) : Nat :=
  (toks.length + 1) * (s.length + 2)

/-- Worker for `regexReplaceAll`, fueled like `replAllAux`. A zero-length
or failed match keeps the character and moves on (the server patterns
begin with a nonempty literal, so a successful match always consumes at
least one character and this models the global-replace scan exactly). -/
def reReplAux (toks : List RTok) (repl : List Char) : Nat → List Char → List Char
  | 0, _ => []
  | _ + 1, [] => []
  | fuel + 1, c :: cs =>
    match matchToks (matchFuel toks (c :: cs)) toks (c :: cs) with
    | some (n + 1) => repl ++ reReplAux toks repl fuel (List.drop n cs)
    | _ => c :: reReplAux toks repl fuel cs

/-- Model of `s.replace(re, repl)` for a global regex built from `toks`
and a constant replacement string. -/
def regexReplaceAll (toks : List RTok) (repl : String) (s : String) : String :=
  ⟨reReplAux toks repl.data (s.data.length + 1) s.data⟩

/-- Model of `String.prototype.trim`. -/
def jsTrim (s : String) : String :=
  ⟨((s.data.dropWhile isJsWs).reverse.dropWhile isJsWs).reverse⟩

/-- ASCII lowercasing, the fragment of `toLowerCase` relevant to the
extension comparisons performed by the server. -/
def asciiLowerChar (c : Char) : Char :=
  if 'A' ≤ c && c ≤ 'Z' then Char.ofNat (c.toNat + 32) else c

/-- ASCII lowercasing of a string. -/
def asciiLower (s : String) : String :=
  ⟨s.data.map asciiLowerChar⟩

/-- The standard base64 alphabet. -/
def base64Alphabet : List Char :=
  "ABCDEFGHIJKLMNOPQRSTUVWXYZabcdefghijklmnopqrstuvwxyz0123456789+/".data

/-- Character for a 6-bit group. -/
def b64 (n : Nat) : Char := base64Alphabet.getD n 'A'

/-- Model of `Buffer.prototype.toString('base64')` on a byte list
(standard alphabet, `=` padding). -/
def base64Encode : List Nat → List Char
  | [] => []
  | [x] => [b64 (x / 4), b64 (x % 4 * 16), '=', '=']
  | [x, y] => [b64 (x / 4), b64 (x % 4 * 16 + y / 16), b64 (y % 16 * 4), '=']
  | x :: y :: z :: rest =>
    b64 (x / 4) :: b64 (x % 4 * 16 + y / 16) :: b64 (y % 16 * 4 + z / 64) ::
      b64 (z % 64) :: base64Encode rest

/-- Index of the last occurrence of `c` in `s`, if any. -/
def lastIdxOf (c : Char) : List Char → Option Nat
  | [] => none
  | x :: xs =>
    match lastIdxOf c xs with
    | some i => some (i + 1)
    | none => if x == c then some 0 else none

/-- The part of a POSIX path after its last slash. -/
def basenameL : List Char → List Char
  | [] => []
  | c :: cs => if c == '/' then basenameL cs else
      if (cs.contains '/') then basenameL cs else c :: cs

/-- Node.js `path.extname` (POSIX): the extension of the basename from its
last dot, empty when there is no dot, when the dot is the basename's
first character (dotfiles), or when the basename is exactly `..`. -/
def nodeExtname (p : String) : String :=
  let b := basenameL p.data
  match lastIdxOf '.' b with
  | none => ⟨[]⟩
  | some d =>
    if d = 0 then ⟨[]⟩
    else if b = ['.', '.'] then ⟨[]⟩
    else ⟨b.drop d⟩


/-- First chunk of the fixed text of the default prompt before the
`${task}` insertion point (`server.js:276-434`). The text is stored in
three chunks, split at line boundaries, purely so that each literal stays
within the proof checker's evaluation depth; their concatenation
`defaultTplA` is exactly the source text. -/
def defaultTplA1 : String :=
  "# SYSTEM PROMPT: Feedback Co-Pilot (Ð²ÐµÑ\u20ACÑÑ\u2013Ñ Ð· ÑƒÑ\u20ACÐ°Ñ\u2026ÑƒÐ²Ð°Ð½Ð½ÑÐ¼ Ñ\u20ACÐµÐ°Ð»ÑŒÐ½Ð¾Ð³Ð¾ ÑÑ\u201AÐ¸Ð»ÑŽ)\n\nÐ¢Ð¸ â\u20AC\u201D **AI-ÐºÑƒÑ\u20ACÐ°Ñ\u201AÐ¾Ñ\u20AC Ñƒ ÑÑ\u201AÐ¸Ð»Ñ\u2013 Ñ\u20ACÐµÐ°Ð»ÑŒÐ½Ð¸Ñ\u2026 ÐºÑƒÑ\u20ACÐ°Ñ\u201AÐ¾Ñ\u20ACÑ\u2013Ð² ÐºÑƒÑ\u20ACÑÑƒ**.  \n\nÐ¢Ð²Ð¾Ñ Ð·Ð°Ð´Ð°Ñ\u2021Ð° â\u20AC\u201D ÑÑ\u201AÐ²Ð¾Ñ\u20ACÑŽÐ²Ð°Ñ\u201AÐ¸ Ñ\u201AÐµÐ¿Ð»Ð¸Ð¹, Ð´Ñ\u20ACÑƒÐ¶Ð½Ñ\u2013Ð¹, Ð°Ð»Ðµ Ð¿Ñ\u20ACÐ¾Ñ\u201EÐµÑÑ\u2013Ð¹Ð½Ð¸Ð¹ Ñ\u201EÑ\u2013Ð´Ð±ÐµÐº, ÑÐºÐ¸Ð¹ Ð²Ñ\u2013Ð´Ñ\u2021ÑƒÐ²Ð°Ñ\u201DÑ\u201AÑŒÑÑ Â«Ð¶Ð¸Ð²Ð¸Ð¼Â» Ñ\u2013 Ð±Ð»Ð¸Ð·ÑŒÐºÐ¸Ð¼ Ð´Ð¾ Ð»ÑŽÐ´Ð¸Ð½Ð¸.  \n\nÐ¢Ð¾Ð½ Ð·Ð°Ð²Ð¶Ð´Ð¸ Ð¿Ñ\u2013Ð´Ñ\u201AÑ\u20ACÐ¸Ð¼ÑƒÐ²Ð°Ð»ÑŒÐ½Ð¸Ð¹, ÑÐ²Ñ\u2013Ñ\u201AÐ»Ð¸Ð¹, Ð¿Ð¾Ð·Ð¸Ñ\u201AÐ¸Ð²Ð½Ð¸Ð¹, Ð· Ð»ÐµÐ³ÐºÐ¾ÑŽ ÐµÐ¼Ð¾Ñ\u2020Ñ\u2013Ð¹Ð½Ñ\u2013ÑÑ\u201AÑŽ (Ð°Ð»Ðµ Ð±ÐµÐ· Ð½Ð°Ð´Ð¼Ñ\u2013Ñ\u20ACÐ½Ð¾ÑÑ\u201AÑ\u2013).\n\nÐ¤Ñ\u2013Ð´Ð±ÐµÐº Ð¼Ð°Ñ\u201D Ð±ÑƒÑ\u201AÐ¸ Ð¾Ð´Ð½Ð¾Ñ\u2021Ð°ÑÐ½Ð¾:\n\n- Ñ\u201AÐµÐ¿Ð»Ð¸Ð¼ Ñ\u2013 Ð¿ÐµÑ\u20ACÑÐ¾Ð½Ð°Ð»Ñ\u2013Ð·Ð¾Ð²Ð°Ð½Ð¸Ð¼ (Â«Ð\u2019Ñ\u2013Ñ\u201AÐ°ÑŽ Ð· Ð´Ð¾Ð¼Ð°ÑˆÐºÐ¾ÑŽ!Â», Â«ÐšÐ»Ð°ÑÐ½Ð¸Ð¹ ÑÑ\u201AÐ°Ñ\u20ACÑ\u201A!Â», Â«Ð¢Ð¸ Ð¼Ð¾Ð»Ð¾Ð´ÐµÑ\u2020ÑŒ!Â»);\n\n- ÑÑ\u201AÑ\u20ACÑƒÐºÑ\u201AÑƒÑ\u20ACÐ¾Ð²Ð°Ð½Ð¸Ð¼ (Context â\u2020\u2019 Strengths â\u2020\u2019 Improvements â\u2020\u2019 Next steps);\n\n- ÐºÐ¾Ð½ÐºÑ\u20ACÐµÑ\u201AÐ½Ð¸Ð¼ (Ð· Ð¿Ñ\u20ACÐ¸ÐºÐ»Ð°Ð´Ð°Ð¼Ð¸, Ð¿Ð¾ÑÑÐ½ÐµÐ½Ð½ÑÐ¼Ð¸, Ñ\u201AÐ¾Ñ\u2021Ð½Ð¸Ð¼Ð¸ Ð¿Ð¾Ñ\u20ACÐ°Ð´Ð°Ð¼Ð¸);\n\n- ÐµÐ¼Ð¿Ð°Ñ\u201AÑ\u2013Ð¹Ð½Ð¸Ð¼ (Ð±ÐµÐ· Ð¾ÑÑƒÐ´Ñƒ, Ð»Ð¸ÑˆÐµ ÐºÐ¾Ð½ÑÑ\u201AÑ\u20ACÑƒÐºÑ\u201AÐ¸Ð²);\n\n- ÑÑ\u201AÐ¸Ð»ÑŒÐ¾Ð²Ð¸Ð¼ Ñ\u2013 Ð¼Ð°ÐºÑÐ¸Ð¼Ð°Ð»ÑŒÐ½Ð¾ ÑÑ\u2026Ð¾Ð¶Ð¸Ð¼ Ð½Ð° Ñ\u201EÑ\u2013Ð´Ð±ÐµÐºÐ¸ ÐºÑƒÑ\u20ACÐ°Ñ\u201AÐ¾Ñ\u20ACÑ\u2013Ð².\n\n---\n\n## 1. ÐžÑ\u20ACÑ\u2013Ñ\u201DÐ½Ñ\u201AÑƒÐ¹ÑÑ Ð½Ð° Ñ\u20ACÐµÐ°Ð»ÑŒÐ½Ð¸Ð¹ ÑÑ\u201AÐ¸Ð»ÑŒ ÐºÑƒÑ\u20ACÐ°Ñ\u201AÐ¾Ñ\u20ACÑ\u2013Ð²\n\nÐ\u2019Ð¸ÐºÐ¾Ñ\u20ACÐ¸ÑÑ\u201AÐ¾Ð²ÑƒÐ¹ ÑÑ\u201AÐ¸Ð»ÑŒ Ñ\u2013Ð· Ð¿Ñ\u20ACÐ¸ÐºÐ»Ð°Ð´Ñ\u2013Ð²:\n\n- Ð¿ÐµÑ\u20ACÑÐ¾Ð½Ð°Ð»ÑŒÐ½Ñ\u2013 Ð·Ð²ÐµÑ\u20ACÐ½ÐµÐ½Ð½Ñ: Â«Ð¿Ñ\u20ACÐ¸Ð²Ñ\u2013Ñ\u201A!Â», Â«Ð¼Ð¾Ð»Ð¾Ð´ÐµÑ\u2020ÑŒÂ», Â«ÐºÐ»Ð°ÑÐ½Ð¾, Ñ\u2030Ð¾â\u20AC¦Â», Â«Ð¿Ñ\u20ACÐ¸Ñ\u201DÐ¼Ð½Ð¾ Ñ\u2021Ð¸Ñ\u201AÐ°Ñ\u201AÐ¸Â»;\n\n- ÐºÐ¾Ð¼Ð¿Ð»Ñ\u2013Ð¼ÐµÐ½Ñ\u201A Ð¿ÐµÑ\u20ACÐµÐ´ Ð·Ð°ÑƒÐ²Ð°Ð¶ÐµÐ½Ð½ÑÐ¼Ð¸;\n\n- Ð»ÐµÐ³ÐºÑ\u2013 ÐµÐ¼Ð¾Ñ\u2020Ñ\u2013Ð¹Ð½Ñ\u2013 Ð¼Ð°Ñ\u20ACÐºÐµÑ\u20ACÐ¸: Â«done! ðŸ¤©Â», Â«Ð½Ð°Ð¹ÑÂ», Â«ÑÑƒÐ¿ÐµÑ\u20ACÂ»;\n\n- ÑÑ\u201AÑ\u20ACÑƒÐºÑ\u201AÑƒÑ\u20ACÐ¾Ð²Ð°Ð½Ñ\u2013 ÑÐ¿Ð¸ÑÐºÐ¸;\n"

/-- Second chunk of the fixed default-prompt text (see `defaultTplA1`). -/
def defaultTplA2 : String :=
  "\n- Ð¼\x27ÑÐºÑ\u2013 Ñ\u201EÐ¾Ñ\u20ACÐ¼ÑƒÐ»ÑŽÐ²Ð°Ð½Ð½Ñ Ñƒ ÐºÑ\u20ACÐ¸Ñ\u201AÐ¸Ñ\u2020Ñ\u2013: Â«Ð¼Ð¾Ð¶Ð½Ð° Ð´Ð¾Ð´Ð°Ñ\u201AÐ¸Â», Â«Ð±ÑƒÐ»Ð¾ Ð± Ñ\u2020Ñ\u2013ÐºÐ°Ð²Ð¾Â», Â«Ñ\u2026Ð¾Ñ\u201AÑ\u2013Ð»Ð¾ÑÑ Ð± Ñ\u201AÑ\u20ACÐ¾Ñ\u2026Ð¸ Ð±Ñ\u2013Ð»ÑŒÑˆÐµÂ»;\n\n- Ñ\u20ACÐµÐºÐ¾Ð¼ÐµÐ½Ð´Ð°Ñ\u2020Ñ\u2013Ñ\u2014 ÑÐº Â«Ñ\u2013Ð´ÐµÑ\u2014 Ð½Ð° Ð¿Ð¾Ð´ÑƒÐ¼Ð°Ñ\u201AÐ¸Â»;\n\n- Ñ\u201AÐ¾Ð½ Ñ\u20ACÐ¾Ð·Ð¼Ð¾Ð²Ð½Ð¸Ð¹, Ð¿Ñ\u20ACÐ¸Ñ\u20ACÐ¾Ð´Ð½Ð¸Ð¹, Ð°Ð»Ðµ Ð½Ðµ Ñ\u201EÐ°Ð¼Ñ\u2013Ð»ÑŒÑÑ\u20ACÐ½Ð¸Ð¹.\n\n---\n\n## 2. ÐžÑ\u2020Ñ\u2013Ð½ÑŽÐ¹ Ð·Ð° Ñ\u2021Ñ\u2013Ñ\u201AÐºÐ¸Ð¼Ð¸ ÐºÑ\u20ACÐ¸Ñ\u201AÐµÑ\u20ACÑ\u2013ÑÐ¼Ð¸ ÐºÑƒÑ\u20ACÑÑƒ\n\n### Ð\u00A0Ð¾Ð·ÑƒÐ¼Ñ\u2013Ð½Ð½Ñ Ñ\u201AÐµÐ¼Ð¸\n\nÐ§Ð¸ ÐºÐ¾Ñ\u20ACÐµÐºÑ\u201AÐ½Ð¾ Ð·Ð°ÑÑ\u201AÐ¾ÑÐ¾Ð²Ð°Ð½Ñ\u2013 Ñ\u2013Ð½ÑÑ\u201AÑ\u20ACÑƒÐ¼ÐµÐ½Ñ\u201AÐ¸, Ð»Ð¾Ð³Ñ\u2013ÐºÐ°, Ñ\u201AÐµÐ¾Ñ\u20ACÑ\u2013Ñ.\n\n### ÐžÑ\u201EÐ¾Ñ\u20ACÐ¼Ð»ÐµÐ½Ð½Ñ\n\nÐ¡Ñ\u201AÑ\u20ACÑƒÐºÑ\u201AÑƒÑ\u20ACÐ°, Ð¿Ñ\u2013Ð´Ð·Ð°Ð³Ð¾Ð»Ð¾Ð²ÐºÐ¸, Ñ\u2021Ð¸Ñ\u201AÐ°Ð±ÐµÐ»ÑŒÐ½Ñ\u2013ÑÑ\u201AÑŒ, Ð²Ñ\u2013Ð·ÑƒÐ°Ð»Ð¸, Ð³Ñ\u20ACÐ°Ð¼Ð¾Ñ\u201AÐ½Ñ\u2013ÑÑ\u201AÑŒ.\n\n### Ð\u00A0Ð¾Ð·Ñ\u20ACÐ°Ñ\u2026ÑƒÐ½ÐºÐ¸ Ð² Google Sheets (ÑÐºÑ\u2030Ð¾ Ñ\u201D)\n\nÐ¤Ð¾Ñ\u20ACÐ¼ÑƒÐ»Ð¸, Ð¿Ñ\u20ACÐ°Ð²Ð¸Ð»ÑŒÐ½Ñ\u2013ÑÑ\u201AÑŒ Ð»Ð¾Ð³Ñ\u2013ÐºÐ¸.\n\n### ÐšÐ¾Ð¼ÐµÐ½Ñ\u201AÐ°Ñ\u20AC ÑÑ\u201AÑƒÐ´ÐµÐ½Ñ\u201AÐ°\n\nÐ§Ð¸ Ð¿Ð¾ÑÑÐ½ÑŽÑ\u201D Ñ\u2026Ñ\u2013Ð´ Ð´ÑƒÐ¼Ð¾Ðº, Ñ\u201AÑ\u20ACÑƒÐ´Ð½Ð¾Ñ\u2030Ñ\u2013, Ñ\u20ACÑ\u2013ÑˆÐµÐ½Ð½Ñ.\n\n> Ð¦Ðµ Ð½Ðµ Ð¾Ñ\u2020Ñ\u2013Ð½ÐºÐ° Â«Ð¿Ñ\u20ACÐ°Ð²Ð¸Ð»ÑŒÐ½Ð¾/Ð½ÐµÐ¿Ñ\u20ACÐ°Ð²Ð¸Ð»ÑŒÐ½Ð¾Â», Ð° Ð°Ð½Ð°Ð»Ñ\u2013Ð· Ñ\u20ACÐ¾Ð·ÑƒÐ¼Ñ\u2013Ð½Ð½Ñ.\n\n---\n\n## 3. Ð¡Ñ\u201AÑ\u20ACÑƒÐºÑ\u201AÑƒÑ\u20ACÐ° Ð²Ð¸Ñ\u2026Ñ\u2013Ð´Ð½Ð¾Ð³Ð¾ Ñ\u201EÑ\u2013Ð´Ð±ÐµÐºÑƒ\n\n### Ð\u2019ÑÑ\u201AÑƒÐ¿\n\nÐ¢ÐµÐ¿Ð»Ðµ Ð·Ð²ÐµÑ\u20ACÐ½ÐµÐ½Ð½Ñ + Ð¼Ñ\u2013Ð½Ñ\u2013-ÐºÐ¾Ð¼Ð¿Ð»Ñ\u2013Ð¼ÐµÐ½Ñ\u201A + Â«done!Â» Ð°Ð±Ð¾ Ð¿Ð¾Ð´Ñ\u2013Ð±Ð½Ðµ.\n\n**ÐŸÑ\u20ACÐ¸ÐºÐ»Ð°Ð´:**\n\nÂ«Ð\u2020Ñ\u20ACÐ¾, Ð¿Ñ\u20ACÐ¸Ð²Ñ\u2013Ñ\u201A! Ð\u2019Ñ\u2013Ñ\u201AÐ°ÑŽ Ð· Ð´Ð¾Ð¼Ð°ÑˆÐºÐ¾ÑŽ â\u20AC\u201D done! Ð\u201DÑƒÐ¶Ðµ Ð¿Ñ\u20ACÐ¸Ñ\u201DÐ¼Ð½Ð¾ Ð±ÑƒÐ»Ð¾ Ñ\u2021Ð¸Ñ\u201AÐ°Ñ\u201AÐ¸, Ñ\u201AÐ¸ ÐºÐ»Ð°ÑÐ½Ð¾ Ð¿Ñ\u2013Ð´Ñ\u2013Ð¹ÑˆÐ»Ð° Ð´Ð¾ Ð·Ð°Ð²Ð´Ð°Ð½Ð½Ñ ðŸ\u2019\u203AÂ»\n\n### Context\n\n1â\u20AC\u201C2 Ñ\u20ACÐµÑ\u2021ÐµÐ½Ð½Ñ Ð¿Ñ\u20ACÐ¾ Ñ\u201AÐµ, ÑÐºÐµ Ð±ÑƒÐ»Ð¾ Ð·Ð°Ð²Ð´Ð°Ð½Ð½Ñ Ñ\u2013 Ñ\u2030Ð¾ Ð·Ñ\u20ACÐ¾Ð±Ð¸Ð² ÑÑ\u201AÑƒÐ´ÐµÐ½Ñ\u201A.\n\n### Strengths\n\n3â\u20AC\u201C6 ÐºÐ¾Ð½ÐºÑ\u20ACÐµÑ\u201AÐ½Ð¸Ñ\u2026 ÑÐ¸Ð»ÑŒÐ½Ð¸Ñ\u2026 Ð¼Ð¾Ð¼ÐµÐ½Ñ\u201AÑ\u2013Ð².\n\nÐ¡Ñ\u201AÐ¸Ð»ÑŒÐ¾Ð²Ñ\u2013 Ñ\u201EÐ¾Ñ\u20ACÐ¼ÑƒÐ»ÑŽÐ²Ð°Ð½Ð½Ñ:\n\n- Â«Ð´ÑƒÐ¶Ðµ ÐºÐ»Ð°ÑÐ½Ð¾, Ñ\u2030Ð¾â\u20AC¦Â»\n"

/-- Third chunk of the fixed default-prompt text (see `defaultTplA1`),
ending with the `### ASSIGNMENT:` heading and its blank line. -/
def defaultTplA3 : String :=
  "\n- Â«Ð¿Ñ\u2013Ð´ÐºÑ\u20ACÐµÑÐ»ÑŽ Ð¾ÐºÑ\u20ACÐµÐ¼Ð¾, Ñ\u2030Ð¾â\u20AC¦Â»\n\n- Â«Ð²Ð¸Ð´Ð½Ð¾, Ñ\u2030Ð¾ Ñ\u201AÐ¸ Ñ\u20ACÐµÐ°Ð»ÑŒÐ½Ð¾ Ð¿Ð¾Ð¿Ñ\u20ACÐ°Ñ\u2020ÑŽÐ²Ð°Ð»Ð°â\u20AC¦Â»\n\n- Â«ÑÑ\u201AÑ\u20ACÑƒÐºÑ\u201AÑƒÑ\u20ACÐ° Ð·Ñ\u2021Ð¸Ñ\u201AÑƒÑ\u201DÑ\u201AÑŒÑÑ Ð¿Ð»Ð°Ð²Ð½Ð¾â\u20AC¦Â»\n\n### Improvements\n\nÐœ\x27ÑÐºÑ\u2013, ÐºÐ¾Ð½ÑÑ\u201AÑ\u20ACÑƒÐºÑ\u201AÐ¸Ð²Ð½Ñ\u2013 Ð¿Ð¾Ñ\u20ACÐ°Ð´Ð¸.\n\nÐšÐ¾Ð¶ÐµÐ½ Ð¿ÑƒÐ½ÐºÑ\u201A Ð¼Ð°Ñ\u201D Ð¼Ñ\u2013ÑÑ\u201AÐ¸Ñ\u201AÐ¸:\n\n- Ñ\u2030Ð¾ Ð¿Ð¾ÐºÑ\u20ACÐ°Ñ\u2030Ð¸Ñ\u201AÐ¸,\n\n- Ñ\u2021Ð¾Ð¼Ñƒ Ñ\u2020Ðµ Ð²Ð°Ð¶Ð»Ð¸Ð²Ð¾,\n\n- Ð¿Ñ\u20ACÐ¸ÐºÐ»Ð°Ð´, ÑÐº Ð·Ñ\u20ACÐ¾Ð±Ð¸Ñ\u201AÐ¸ ÐºÑ\u20ACÐ°Ñ\u2030Ðµ.\n\nÐ¡Ñ\u201AÐ¸Ð»ÑŒÐ¾Ð²Ñ\u2013 Ñ\u201EÑ\u20ACÐ°Ð·Ð¸:\n\n- Â«Ð¼Ð¾Ð¶Ð½Ð° Ð±ÑƒÐ»Ð¾ Ð± Ñ\u2030Ðµ Ñ\u201AÑ\u20ACÐ¾Ñ\u2026Ð¸ Ð´Ð¾Ð´Ð°Ñ\u201AÐ¸â\u20AC¦Â»\n\n- Â«Ð±ÑƒÐ»Ð¾ Ð± Ñ\u2020Ñ\u2013ÐºÐ°Ð²Ð¾ Ð¿Ð¾Ð±Ð°Ñ\u2021Ð¸Ñ\u201AÐ¸â\u20AC¦Â»\n\n- Â«Ñ\u2026Ð¾Ñ\u201AÑ\u2013Ð»Ð¾ÑÑŒ Ð±Ð¸ Ð±Ñ\u2013Ð»ÑŒÑˆÐµ ÐºÐ¾Ð½ÐºÑ\u20ACÐµÑ\u201AÐ¸ÐºÐ¸â\u20AC¦Â»\n\n- Â«Ñ\u2013Ð´ÐµÑ Ð½Ð° Ð¿Ð¾Ð´ÑƒÐ¼Ð°Ñ\u201AÐ¸â\u20AC¦Â»\n\n### Next Steps\n\n3â\u20AC\u201C6 ÐºÐ¾Ñ\u20ACÐ¾Ñ\u201AÐºÐ¸Ñ\u2026, Ð¿Ñ\u20ACÐ°ÐºÑ\u201AÐ¸Ñ\u2021Ð½Ð¸Ñ\u2026 Ñ\u20ACÐµÐºÐ¾Ð¼ÐµÐ½Ð´Ð°Ñ\u2020Ñ\u2013Ð¹.\n\nÐ¤Ð¾Ñ\u20ACÐ¼Ð°Ñ\u201A:\n\n1. â\u20AC¦\n\n2. â\u20AC¦\n\n3. â\u20AC¦\n\n---\n\n## 4. Ð¢Ð¾Ð½ Ñ\u201AÐ° ÑÑ\u201AÐ¸Ð»ÑŒ\n\nÐ\u201DÐ¾Ñ\u201AÑ\u20ACÐ¸Ð¼ÑƒÐ¹ÑÑ:\n\n- Ñ\u201AÐµÐ¿Ð»Ð¾Ð³Ð¾, Ð´Ñ\u20ACÑƒÐ¶Ð½ÑŒÐ¾Ð³Ð¾ Ñ\u201AÐ¾Ð½Ñƒ: Â«Ð¼Ð¾Ð»Ð¾Ð´ÐµÑ\u2020ÑŒÂ», Â«Ð´ÑƒÐ¶Ðµ ÐºÐ»Ð°ÑÐ½Ð¾Â», Â«Ð¿Ñ\u20ACÐ¸Ñ\u201DÐ¼Ð½Ð¾ Ñ\u2021Ð¸Ñ\u201AÐ°Ñ\u201AÐ¸Â»;\n\n- Ð´Ð¾Ð±Ñ\u20ACÐ¾Ð·Ð¸Ñ\u2021Ð»Ð¸Ð²Ð¾Ñ\u2014 Ð¼Ð¾Ð²Ð¸ Ð±ÐµÐ· Ð¾ÑÑƒÐ´Ñƒ;\n\n- Ð»ÐµÐ³ÐºÐ¸Ñ\u2026 emoji (1â\u20AC\u201C2 Ð¼Ð°ÐºÑÐ¸Ð¼ÑƒÐ¼);\n\n- Ñ\u20ACÐ¾Ð·Ð¼Ð¾Ð²Ð½Ð¾Ð³Ð¾, Ð°Ð»Ðµ Ð³Ñ\u20ACÐ°Ð¼Ð¾Ñ\u201AÐ½Ð¾Ð³Ð¾ ÑÑ\u201AÐ¸Ð»ÑŽ;\n\n- ÐºÐ¾Ð½ÐºÑ\u20ACÐµÑ\u201AÐ¸ÐºÐ¸ Ñ\u201AÐ° Ð¿Ñ\u20ACÐ¸ÐºÐ»Ð°Ð´Ñ\u2013Ð²;\n\n- Ñ\u2013Ð´ÐµÐ¹ Ñ\u201AÐ° Ð³Ñ\u2013Ð¿Ð¾Ñ\u201AÐµÐ· Ð´Ð»Ñ Ñ\u20ACÐ¾Ð·Ð²Ð¸Ñ\u201AÐºÑƒ.\n\nÐÐµ Ð²Ð¸ÐºÐ¾Ñ\u20ACÐ¸ÑÑ\u201AÐ¾Ð²ÑƒÐ¹:\n\n- ÑÑƒÑ\u2026Ñƒ Ñ\u201EÐ¾Ñ\u20ACÐ¼Ð°Ð»ÑŒÐ½Ñ\u2013ÑÑ\u201AÑŒ;\n\n- Ñ\u20ACÑ\u2013Ð·ÐºÑƒ ÐºÑ\u20ACÐ¸Ñ\u201AÐ¸ÐºÑƒ;\n\n- Ð½Ð°Ð´Ð¼Ñ\u2013Ñ\u20ACÐ½Ð¾ Ð°ÐºÐ°Ð´ÐµÐ¼Ñ\u2013Ñ\u2021Ð½Ð¸Ð¹ ÑÑ\u201AÐ¸Ð»ÑŒ.\n\n---\n\n## Ð\u2014ÐÐ\u2019Ð\u201DÐÐÐÐ¯:\n\n### ASSIGNMENT:\n\n"

/-- Fixed text of the default prompt up to and including the
`### ASSIGNMENT:` heading and its blank line, i.e. everything before the
`${task}` insertion point of `generateDefaultPrompt`
(`server.js:276-434`). -/
def defaultTplA : String :=
  defaultTplA1 ++ defaultTplA2 ++ defaultTplA3

/-- Fixed text between the `${task}${contentTypeNote}` insertion points and the `${studentWorkPlaceholder}` insertion point: a newline, the `### STUDENT WORK:` heading and a blank line (`server.js:434-437`). -/
def defaultTplB : String :=
  "\n### STUDENT WORK:\n\n"

/-- Fixed trailer of the default prompt after the student work (`server.js:437-443`). -/
def defaultTplC : String :=
  "\n\n---\n\nÐ¡Ñ\u201AÐ²Ð¾Ñ\u20ACÐ¸ Ñ\u201EÑ\u2013Ð´Ð±ÐµÐº Ð·Ð° ÑÑ\u201AÑ\u20ACÑƒÐºÑ\u201AÑƒÑ\u20ACÐ¾ÑŽ: Ð\u2019ÑÑ\u201AÑƒÐ¿ â\u2020\u2019 Context â\u2020\u2019 Strengths â\u2020\u2019 Improvements â\u2020\u2019 Next Steps.\n\nÐ\u2019Ð¸ÐºÐ¾Ñ\u20ACÐ¸ÑÑ\u201AÐ¾Ð²ÑƒÐ¹ ÑƒÐºÑ\u20ACÐ°Ñ\u2014Ð½ÑÑŒÐºÑƒ Ð¼Ð¾Ð²Ñƒ."

/-- Text of `contentTypeNote` before the `${typeDesc}` insertion (`server.js:273` and `server.js:521`, identical at both sites). -/
def noteHead : String :=
  "\n\n**Ð\u2019ÐÐ\u2013Ð\u203AÐ˜Ð\u2019Ðž:** Ð\u00A0Ð¾Ð±Ð¾Ñ\u201AÐ° ÑÑ\u201AÑƒÐ´ÐµÐ½Ñ\u201AÐ° Ð½Ð°Ð´Ð°Ð½Ð° Ñƒ Ð²Ð¸Ð³Ð»ÑÐ´Ñ\u2013 "

/-- Text of `contentTypeNote` after the `${typeDesc}` insertion. -/
def noteSuffix : String :=
  ". Ð\u2019Ñ\u20ACÐ°Ñ\u2026Ð¾Ð²ÑƒÐ¹ Ñ\u2020Ðµ Ð¿Ñ\u20ACÐ¸ Ð°Ð½Ð°Ð»Ñ\u2013Ð·Ñ\u2013 Ñ\u201AÐ° Ð½Ðµ Ñ\u20ACÐµÐºÐ¾Ð¼ÐµÐ½Ð´ÑƒÐ¹ ÑÑ\u201AÐ²Ð¾Ñ\u20ACÑŽÐ²Ð°Ñ\u201AÐ¸ Ñ\u201AÐµ, Ñ\u2030Ð¾ Ð²Ð¶Ðµ Ð½Ð°Ð´Ð°Ð½Ð¾ (Ð½Ð°Ð¿Ñ\u20ACÐ¸ÐºÐ»Ð°Ð´, ÑÐºÑ\u2030Ð¾ Ð½Ð°Ð´Ð°Ð½Ð° Ð¿Ñ\u20ACÐµÐ·ÐµÐ½Ñ\u201AÐ°Ñ\u2020Ñ\u2013Ñ, Ð½Ðµ Ñ\u20ACÐµÐºÐ¾Ð¼ÐµÐ½Ð´ÑƒÐ¹ \"ÑÑ\u201AÐ²Ð¾Ñ\u20ACÐ¸ Ð¿Ñ\u20ACÐµÐ·ÐµÐ½Ñ\u201AÐ°Ñ\u2020Ñ\u2013ÑŽ\").\n"

/-- The literal placeholder used instead of the content when the submission is an image (`server.js:267` and `server.js:515`, both occurrences are the same string). -/
def imagePlaceholder : String :=
  "[Ð\u00A0Ð¾Ð±Ð¾Ñ\u201AÐ° ÑÑ\u201AÑƒÐ´ÐµÐ½Ñ\u201AÐ° Ð½Ð°Ð´Ð°Ð½Ð° ÑÐº Ð·Ð¾Ð±Ñ\u20ACÐ°Ð¶ÐµÐ½Ð½Ñ Ð½Ð¸Ð¶Ñ\u2021Ðµ]"


/-- Truthiness of an optional string field of the JSON body: an absent
field (undefined/null) and the empty string are falsy in the guards the
handler uses. -/
def truthy : Option String → Bool
  | none => false
  | some s => !s.isEmpty

/-- Map from content-type tag to its human description
(`getContentTypeDescription`, `server.js:255-263`); unrecognised tags
fall back to the generic description. -/
def getContentTypeDescription (contentType : String) : String :=
  if contentType = "pdf" then "PDF Ñ„Ð°Ð¹Ð»"
  else if contentType = "image" then "Ð·Ð¾Ð±Ñ€Ð°Ð¶ÐµÐ½Ð½Ñ (PNG, JPG)"
  else if contentType = "google-docs" then "Google Docs Ð´Ð¾ÐºÑƒÐ¼ÐµÐ½Ñ‚"
  else if contentType = "google-slides" then "Google Slides Ð¿Ñ€ÐµÐ·ÐµÐ½Ñ‚Ð°Ñ†Ñ–Ñ"
  else "Ð´Ð¾ÐºÑƒÐ¼ÐµÐ½Ñ‚"

/-- The `contentTypeNote` computed at `server.js:270-274` (default path)
and `server.js:518-522` (custom path), identical at both sites: empty for
a falsy tag, otherwise the disclosure sentence around the tag
description. -/
def contentTypeNoteFor (t : Option String) : String :=
  if truthy t then noteHead ++ getContentTypeDescription (t.getD "") ++ noteSuffix
  else ""

/-- Model of `generateDefaultPrompt(task, content, isImage, contentType)`
(`server.js:266-444`): the fixed instruction document with the task, the
optional content-type note and the student work (or the image
placeholder) spliced in at their template-literal insertion points. -/
def generateDefaultPrompt (task content : String) (isImage : Bool)
    (contentType : Option String) : String :=
  let studentWorkPlaceholder := if isImage then imagePlaceholder else content
  let contentTypeNote := contentTypeNoteFor contentType
  defaultTplA ++ task ++ contentTypeNote ++ defaultTplB ++
    studentWorkPlaceholder ++ defaultTplC

/-- Kind tag produced by `extractGoogleDocId`. -/
inductive DocKind where
  | document
  | presentation
deriving Repr, DecidableEq

/-- Result record of `extractGoogleDocId`: the extracted ID and the kind
(`{ id, type }` in the source). -/
structure DocInfo where
  id : String
  kind : DocKind
deriving Repr, DecidableEq

/-- Scanner modelling `url.match(/LIT([a-zA-Z0-9-_]+)/)`: at the leftmost
position where the literal occurs followed by at least one ID-class
character, return the maximal ID-class run following the literal. -/
def findShape (lit : List Char) : List Char → Option (List Char)
  | [] => none
  | c :: cs =>
    if hasPrefixL lit (c :: cs) then
      if (((c :: cs).drop lit.length).takeWhile isIdChar).isEmpty then findShape lit cs
      else some (((c :: cs).drop lit.length).takeWhile isIdChar)
    else findShape lit cs

/-- Literal part of the document URL pattern (`server.js:68`). -/
def docLit : String := "/document/d/"

/-- Literal part of the presentation URL pattern (`server.js:77`). -/
def presLit : String := "/presentation/d/"

/-- Model of `extractGoogleDocId(url)` (`server.js:63-83`): the document
pattern is tried first, then the presentation pattern; `none` models the
`null` return for URLs matching neither. -/
def extractGoogleDocId (url : String) : Option DocInfo :=
  match findShape docLit.data url.data with
  | some docId => some ⟨⟨docId⟩, .document⟩
  | none =>
    match findShape presLit.data url.data with
    | some presId => some ⟨⟨presId⟩, .presentation⟩
    | none => none

/-- An HTTP response as observed by the server code: `ok`, `status`,
`statusText` and the body text. -/
structure FetchResp where
  ok : Bool
  status : Nat
  statusText : String
  body : String

/-- Model of `fetchGoogleDocsContent(url)` (`server.js:86-137`),
parameterised by a fetch oracle. The function's own `try/catch` wraps
every failure message in `Failed to fetch Google Docs/Slides content: `.
Besides the `Except` result, the model returns the list of URLs fetched,
in order, so that the retry behaviour is an observable. -/
def fetchGoogleDocsContent (fetch : String → FetchResp) (url : String) :
    Except String String × List String :=
  match extractGoogleDocId url with
  | none =>
    (.error ("Failed to fetch Google Docs/Slides content: " ++
      "Invalid Google Docs or Slides URL format"), [])
  | some info =>
    let exportUrl :=
      match info.kind with
      | .document =>
        "https://docs.google.com/document/d/" ++ info.id ++ "/export?format=txt"
      | .presentation =>
        "https://docs.google.com/presentation/d/" ++ info.id ++ "/export?format=txt"
    let resp := fetch exportUrl
    if resp.ok then (.ok resp.body, [exportUrl])
    else
      match info.kind with
      | .document =>
        let altUrl :=
          "https://docs.google.com/document/d/" ++ info.id ++ "/export?format=plain"
        let altResp := fetch altUrl
        if altResp.ok then (.ok altResp.body, [exportUrl, altUrl])
        else
          (.error ("Failed to fetch Google Docs/Slides content: " ++
            "Failed to fetch document content: " ++ toString resp.status ++ " " ++
            resp.statusText), [exportUrl, altUrl])
      | .presentation =>
        (.error ("Failed to fetch Google Docs/Slides content: " ++
          "Failed to fetch presentation content: " ++ toString resp.status ++ " " ++
          resp.statusText), [exportUrl])

/-- The fields of `req.file` that the upload handler reads: the temporary
path multer stored the upload at, the client-supplied original filename,
and the uploaded bytes (the model carries the bytes alongside instead of
reading them from disk). -/
structure UploadedFile where
  path : String
  originalname : String
  bytes : List Nat
deriving Repr, DecidableEq

/-- Result record of `imageToBase64` (`server.js:44-60`). -/
structure ImagePayload where
  data : String
  mimeType : String
deriving Repr, DecidableEq

/-- Model of `imageToBase64(filePath)` (`server.js:44-60`): base64-encode
the bytes stored at `filePath` and choose the MIME type by the lowercased
extension of `filePath` itself, defaulting to `image/jpeg`. -/
def imageToBase64 (filePath : String) (bytes : List Nat) : ImagePayload :=
  let ext := asciiLower (nodeExtname filePath)
  let mimeType :=
    if ext = ".png" then "image/png"
    else if ext = ".jpg" || ext = ".jpeg" then "image/jpeg"
    else "image/jpeg"
  ⟨⟨base64Encode bytes⟩, mimeType⟩

/-- Responses of `POST /api/upload` (`server.js:197-252`): a JSON body
with a `type`/`content` pair, or an error status with a message. -/
inductive UploadResponse where
  | ok (type content : String)
  | clientError (status : Nat) (error : String)
deriving Repr, DecidableEq

/-- Model of the upload handler (`server.js:197-252`), parameterised by
the PDF text extractor (`pdf-parse`). The branch is picked from the
lowercased extension of the ORIGINAL filename, but the image MIME type is
computed from the stored temporary path, because `imageToBase64` receives
`req.file.path` (`server.js:223`). Temp-file cleanup has no observable
value here and is not modelled. -/
def uploadHandler (pdfExtract : List Nat → String)
    (file : Option UploadedFile) : UploadResponse :=
  match file with
  | none => .clientError 400 "No file uploaded"
  | some f =>
    let fileExtension := asciiLower (nodeExtname f.originalname)
    if fileExtension = ".pdf" then .ok "text" (pdfExtract f.bytes)
    else if [".png", ".jpg", ".jpeg"].contains fileExtension then
      let base64Data := imageToBase64 f.path f.bytes
      .ok "image" ("data:" ++ base64Data.mimeType ++ ";base64," ++ base64Data.data)
    else .clientError 400 "Unsupported file type"

/-- Model of the regex `^data:image\\/(\\w+);base64,(.+)$` used by the
image branch (`server.js:583`): the MIME subtype is a nonempty `\\w` run,
the payload a nonempty run of non-line-terminator characters extending to
the end of the string. -/
def parseImageDataUri (content : String) : Option (String × String) :=
  if hasPrefixL "data:image/".data content.data then
    let rest := content.data.drop 11
    let w := rest.takeWhile isWordChar
    let rest2 := rest.drop w.length
    if !w.isEmpty && hasPrefixL ";base64,".data rest2 then
      let d := rest2.drop 8
      if !d.isEmpty && d.all (fun c => !isLineTerm c) then some (⟨w⟩, ⟨d⟩)
      else none
    else none
  else none

/-- The literal `{{criteria}}` placeholder token. -/
def criteriaTok : String := "\x7b\x7bcriteria\x7d\x7d"

/-- The literal `{{task}}` placeholder token. -/
def taskTok : String := "\x7b\x7btask\x7d\x7d"

/-- The literal `{{content}}` placeholder token. -/
def contentTok : String := "\x7b\x7bcontent\x7d\x7d"

/-- Token list of the regex `### EVALUATION CRITERIA:\s*\n\s*\n`
(`server.js:510`). -/
def critBlankRe : List RTok :=
  [.lit "### EVALUATION CRITERIA:".data, .starWs, .lit "\n".data, .starWs,
   .lit "\n".data]

/-- Token list of the regex
`### EVALUATION CRITERIA:\s*\n\s*### STUDENT WORK:` (`server.js:511`). -/
def critStudentRe : List RTok :=
  [.lit "### EVALUATION CRITERIA:".data, .starWs, .lit "\n".data, .starWs,
   .lit "### STUDENT WORK:".data]

/-- The criteria-stripping steps applied to a custom template
(`server.js:509-511`): remove every `{{criteria}}` token, then collapse a
`### EVALUATION CRITERIA:` heading followed by blank lines, then collapse
such a heading directly followed (through whitespace) by the
`### STUDENT WORK:` heading. -/
def stripCriteria (p : String) : String :=
  let p1 := jsReplaceAll p criteriaTok ""
  let p2 := regexReplaceAll critBlankRe "" p1
  regexReplaceAll critStudentRe "### STUDENT WORK:" p2

/-- The note-insertion step of the custom path (`server.js:536-547`): for
a nonempty note, if the (stripped) template contains the substring
`STUDENT WORK` the note is inserted before the first exact
`### STUDENT WORK:` heading (a no-op when only the bare substring is
present); otherwise, if the template contains `{{content}}`, the note is
inserted before its first occurrence. -/
def insertNote (note p : String) : String :=
  if !note.isEmpty && occursIn p "STUDENT WORK" then
    insertBeforeFirst p "### STUDENT WORK:" note
  else if !note.isEmpty && occursIn p contentTok then
    insertBeforeFirst p contentTok note
  else p

/-- The template preprocessing performed before any task/content text
enters the string: criteria stripping followed by note insertion. -/
def preprocessTemplate (p note : String) : String :=
  insertNote note (stripCriteria p)

/-- The final token substitutions (`server.js:549-551`): `{{task}}` then
`{{content}}`, global, with JavaScript replacement-string semantics. -/
def substTokens (p task contentForPrompt : String) : String :=
  jsReplaceAll (jsReplaceAll p taskTok task) contentTok contentForPrompt

/-- Model of the custom-template branch of the analyze handler
(`server.js:504-551`), written as the same statement sequence as the
source: the three criteria replaces, then the note insertion, then the
`{{task}}`/`{{content}}` substitutions. -/
def processCustomPrompt (customPrompt task content : String) (isImage : Bool)
    (detectedContentType : Option String) : String :=
  let p1 := jsReplaceAll customPrompt criteriaTok ""
  let p2 := regexReplaceAll critBlankRe "" p1
  let p3 := regexReplaceAll critStudentRe "### STUDENT WORK:" p2
  let contentForPrompt := if isImage then imagePlaceholder else content
  let contentTypeNote := contentTypeNoteFor detectedContentType
  let p4 :=
    if !contentTypeNote.isEmpty && occursIn p3 "STUDENT WORK" then
      insertBeforeFirst p3 "### STUDENT WORK:" contentTypeNote
    else if !contentTypeNote.isEmpty && occursIn p3 contentTok then
      insertBeforeFirst p3 contentTok contentTypeNote
    else p3
  jsReplaceAll (jsReplaceAll p4 taskTok task) contentTok contentForPrompt

/-- The request body fields of `POST /api/analyze`. A JSON body may also
carry a `criteria` field (the UI documents `{{criteria}}` placeholders),
so the model keeps it; the handler's destructuring (`server.js:449`)
reads only `task`, `content`, `contentType` and `customPrompt`. -/
structure AnalyzeReq where
  task : String
  content : String
  contentType : Option String
  customPrompt : Option String
  criteria : Option String
deriving Repr, DecidableEq

/-- One part of the generative-model request (`server.js:589-605`). -/
inductive PromptPart where
  | text (s : String)
  | inlineData (mimeType : String) (data : String)
deriving Repr, DecidableEq

/-- Observable outcome of the analyze handler up to the generative-model
call: an error response, or the composed prompt parts handed to
`model.generateContent`. -/
inductive AnalyzeResult where
  | clientError (status : Nat) (error : String)
  | composed (parts : List PromptPart)
deriving Repr, DecidableEq

/-- Model of `POST /api/analyze` (`server.js:447-609`), parameterised by
the fetch oracle and cut off at the generative-model invocation. The
steps mirror the source: required-field validation, Google Docs/Slides
resolution (with content-type inference from the URL), content-type
inference from a data-URI prefix, prompt generation (custom template if
one is supplied and nonblank after trimming, else the default), and the
image/text branching of the request parts. -/
def analyze (fetch : String → FetchResp) (req : AnalyzeReq) : AnalyzeResult :=
  if req.task.isEmpty || req.content.isEmpty then
    .clientError 400 "Missing required fields: task and content are required"
  else
    let fetched : Except String (String × Option String) :=
      if occursIn req.content "docs.google.com" then
        let detected :=
          if !truthy req.contentType then
            if occursIn req.content "/presentation/" then some "google-slides"
            else if occursIn req.content "/document/" then some "google-docs"
            else req.contentType
          else req.contentType
        match (fetchGoogleDocsContent fetch req.content).1 with
        | .ok text => .ok (text, detected)
        | .error msg =>
          .error ("Failed to fetch Google Docs/Slides content: " ++ msg)
      else .ok (req.content, req.contentType)
    match fetched with
    | .error msg => .clientError 400 msg
    | .ok (content, detected0) =>
      let detectedContentType :=
        if !truthy detected0 && hasPrefixL "data:image".data content.data then
          some "image"
        else detected0
      let isImage := hasPrefixL "data:image".data content.data
      let promptText :=
        match req.customPrompt with
        | some cp =>
          if !(jsTrim cp).isEmpty then
            processCustomPrompt cp req.task content isImage detectedContentType
          else generateDefaultPrompt req.task content isImage detectedContentType
        | none => generateDefaultPrompt req.task content isImage detectedContentType
      if isImage then
        match parseImageDataUri content with
        | some (mime, dat) =>
          .composed [.text promptText, .inlineData ("image/" ++ mime) dat]
        | none => .clientError 400 "Invalid image format"
      else .composed [.text promptText]

set_option maxRecDepth 200000

/-- The empty pattern occurs in every string. -/
theorem containsSub_nil_pat : ∀ s : List Char, containsSub [] s = true
  | [] => rfl
  | c :: cs => by simp [containsSub, hasPrefixL, containsSub_nil_pat cs]

/-- A nonempty pattern does not occur in the empty string. -/
theorem containsSub_nil_of_ne (pat : List Char) (hpat : pat ≠ []) :
    containsSub pat [] = false := by
  cases pat with
  | nil => exact absurd rfl hpat
  | cons p ps => rfl

/-- Prefix matching cannot look past a leading character of the remainder
that does not occur in the pattern. -/
theorem hasPrefixL_append_head : ∀ (pat a b : List Char) (ch : Char),
    b.head? = some ch → ch ∉ pat → hasPrefixL pat (a ++ b) = hasPrefixL pat a
  | [], _, _, _, _, _ => rfl
  | p :: ps, [], b, ch, hb, hch => by
    cases b with
    | nil => simp at hb
    | cons c cs =>
      have hcc : c = ch := by simpa using hb
      subst hcc
      have hne : (p == c) = false := by
        simp only [beq_eq_false_iff_ne]
        rintro rfl
        exact hch (List.mem_cons_self _ _)
      show (p == c && hasPrefixL ps cs) = hasPrefixL (p :: ps) []
      rw [hne]
      rfl
  | p :: ps, c :: cs, b, ch, hb, hch => by
    show (p == c && hasPrefixL ps (cs ++ b)) = (p == c && hasPrefixL ps cs)
    rw [hasPrefixL_append_head ps cs b ch hb fun h => hch (List.mem_cons_of_mem _ h)]

/-- Prefix matching cannot look past the last character of `a` when that
character does not occur in the pattern. -/
theorem hasPrefixL_append_last : ∀ (pat a b : List Char) (x : Char),
    a.getLast? = some x → x ∉ pat → hasPrefixL pat (a ++ b) = hasPrefixL pat a
  | [], _, _, _, _, _ => rfl
  | _ :: _, [], _, _, ha, _ => by simp at ha
  | p :: ps, [c], b, x, ha, hch => by
    have hcc : c = x := by simpa using ha
    subst hcc
    have hne : (p == c) = false := by
      simp only [beq_eq_false_iff_ne]
      rintro rfl
      exact hch (List.mem_cons_self _ _)
    show (p == c && hasPrefixL ps b) = (p == c && hasPrefixL ps [])
    rw [hne]
    simp
  | p :: ps, c :: c2 :: cs, b, x, ha, hch => by
    have ha2 : (c2 :: cs).getLast? = some x := by
      simpa [List.getLast?_cons_cons] using ha
    show (p == c && hasPrefixL ps ((c2 :: cs) ++ b)) = (p == c && hasPrefixL ps (c2 :: cs))
    rw [hasPrefixL_append_last ps (c2 :: cs) b x ha2 fun h => hch (List.mem_cons_of_mem _ h)]

/-- Substring occurrence splits over an append whose right part starts
with a character not occurring in the pattern. -/
theorem containsSub_append_head : ∀ (pat a b : List Char) (ch : Char),
    b.head? = some ch → ch ∉ pat →
    containsSub pat (a ++ b) = (containsSub pat a || containsSub pat b)
  | pat, [], b, ch, hb, hch => by
    cases pat with
    | nil => simp [containsSub_nil_pat]
    | cons p ps => simp [containsSub_nil_of_ne (p :: ps) (by simp)]
  | pat, c :: cs, b, ch, hb, hch => by
    show (hasPrefixL pat ((c :: cs) ++ b) || containsSub pat (cs ++ b)) =
      ((hasPrefixL pat (c :: cs) || containsSub pat cs) || containsSub pat b)
    rw [hasPrefixL_append_head pat (c :: cs) b ch hb hch,
      containsSub_append_head pat cs b ch hb hch, Bool.or_assoc]

/-- Substring occurrence splits over an append whose left part ends with
a character not occurring in the pattern. -/
theorem containsSub_append_last : ∀ (pat a b : List Char) (x : Char),
    a.getLast? = some x → x ∉ pat →
    containsSub pat (a ++ b) = (containsSub pat a || containsSub pat b)
  | _, [], _, _, ha, _ => by simp at ha
  | pat, [c], b, x, ha, hch => by
    have hcc : c = x := by simpa using ha
    subst hcc
    cases pat with
    | nil => simp [containsSub_nil_pat]
    | cons p ps =>
      have hne : (p == c) = false := by
        simp only [beq_eq_false_iff_ne]
        rintro rfl
        exact hch (List.mem_cons_self _ _)
      show (hasPrefixL (p :: ps) (c :: b) || containsSub (p :: ps) b) =
        ((hasPrefixL (p :: ps) [c] || containsSub (p :: ps) []) || containsSub (p :: ps) b)
      have e1 : hasPrefixL (p :: ps) (c :: b) = false := by
        show (p == c && hasPrefixL ps b) = false
        rw [hne]
        rfl
      have e2 : hasPrefixL (p :: ps) [c] = false := by
        show (p == c && hasPrefixL ps []) = false
        rw [hne]
        rfl
      rw [e1, e2, containsSub_nil_of_ne (p :: ps) (by simp)]
      simp
  | pat, c :: c2 :: cs, b, x, ha, hch => by
    have ha2 : (c2 :: cs).getLast? = some x := by
      simpa [List.getLast?_cons_cons] using ha
    show (hasPrefixL pat ((c :: c2 :: cs) ++ b) || containsSub pat ((c2 :: cs) ++ b)) =
      ((hasPrefixL pat (c :: c2 :: cs) || containsSub pat (c2 :: cs)) || containsSub pat b)
    rw [hasPrefixL_append_last pat (c :: c2 :: cs) b x ha hch,
      containsSub_append_last pat (c2 :: cs) b x ha2 hch, Bool.or_assoc]

/-- The last element of an append with a nonempty right part. -/
theorem getLast?_append_ne : ∀ (a b : List Char), b ≠ [] →
    (a ++ b).getLast? = b.getLast?
  | [], _, _ => rfl
  | [c], b, hb => by
    cases b with
    | nil => exact absurd rfl hb
    | cons d ds => simp [List.getLast?_cons_cons]
  | c :: c2 :: cs, b, hb => by
    have := getLast?_append_ne (c2 :: cs) b hb
    simpa [List.getLast?_cons_cons] using this

/-- The first element of an append with a nonempty left part. -/
theorem head?_append_ne (a b : List Char) (ha : a ≠ []) :
    (a ++ b).head? = a.head? := by
  cases a with
  | nil => exact absurd rfl ha
  | cons c cs => rfl

/-- A pattern that stays clear of the boundary characters and of all the
description strings does not occur in the content-type note, whatever tag
the note was generated from. -/
theorem contentTypeNote_not_contains (pat : List Char) (hpat : pat ≠ [])
    (hdot : ('.' : Char) ∉ pat) (hP : ('P' : Char) ∉ pat) (hG : ('G' : Char) ∉ pat)
    (hDm : Char.ofNat 208 ∉ pat)
    (hhead : containsSub pat noteHead.data = false)
    (hsuf : containsSub pat noteSuffix.data = false)
    (h1 : containsSub pat (getContentTypeDescription "pdf").data = false)
    (h2 : containsSub pat (getContentTypeDescription "image").data = false)
    (h3 : containsSub pat (getContentTypeDescription "google-docs").data = false)
    (h4 : containsSub pat (getContentTypeDescription "google-slides").data = false)
    (h5 : containsSub pat (getContentTypeDescription "other").data = false) :
    ∀ ct : Option String, containsSub pat (contentTypeNoteFor ct).data = false := by
  have key : ∀ (desc : String) (ch : Char), desc.data.head? = some ch → ch ∉ pat →
      containsSub pat desc.data = false →
      containsSub pat (noteHead ++ desc ++ noteSuffix).data = false := by
    intro desc ch hh hch hdesc
    rw [String.data_append, String.data_append]
    rw [containsSub_append_head pat (noteHead.data ++ desc.data) noteSuffix.data '.' rfl hdot,
      containsSub_append_head pat noteHead.data desc.data ch hh hch,
      hhead, hdesc, hsuf]
    rfl
  intro ct
  rw [contentTypeNoteFor]
  cases htr : truthy ct with
  | false =>
    simp only [htr, Bool.false_eq_true, if_false]
    exact containsSub_nil_of_ne pat hpat
  | true =>
    simp only [htr, if_true]
    rcases ct with _ | s
    · simp [truthy] at htr
    rcases eq_or_ne (s : String) "pdf" with rfl | hs1
    · exact key _ 'P' rfl hP h1
    rcases eq_or_ne (s : String) "image" with rfl | hs2
    · exact key _ (Char.ofNat 208) rfl hDm h2
    rcases eq_or_ne (s : String) "google-docs" with rfl | hs3
    · exact key _ 'G' rfl hG h3
    rcases eq_or_ne (s : String) "google-slides" with rfl | hs4
    · exact key _ 'G' rfl hG h4
    · have hdesc : getContentTypeDescription ((some s).getD "") =
          getContentTypeDescription "other" := by
        simp only [Option.getD_some]
        rw [getContentTypeDescription, getContentTypeDescription]
        simp [hs1, hs2, hs3, hs4]
      rw [hdesc]
      exact key _ (Char.ofNat 208) rfl hDm h5

/-- A list with a last element is nonempty. -/
theorem ne_nil_of_getLast? {a : List Char} {c : Char} (h : a.getLast? = some c) :
    a ≠ [] := by
  intro hnil
  rw [hnil] at h
  simp at h

/-- A list with a first element is nonempty. -/
theorem ne_nil_of_head? {a : List Char} {c : Char} (h : a.head? = some c) :
    a ≠ [] := by
  intro hnil
  rw [hnil] at h
  simp at h

/-- Occurrence of a newline-free pattern in the default prompt splits
into occurrences in the individual template chunks and inserted texts;
the content-type note is already ruled out by the hypothesis. -/
theorem gdp_occurs (pat : List Char) (hnl : ('\n' : Char) ∉ pat)
    (task content : String) (isImage : Bool) (ct : Option String)
    (hnote : containsSub pat (contentTypeNoteFor ct).data = false) :
    containsSub pat (generateDefaultPrompt task content isImage ct).data =
      (containsSub pat defaultTplA1.data || containsSub pat defaultTplA2.data ||
       containsSub pat defaultTplA3.data || containsSub pat task.data ||
       containsSub pat defaultTplB.data ||
       containsSub pat (if isImage then imagePlaceholder else content).data ||
       containsSub pat defaultTplC.data) := by
  have eA1 : defaultTplA1.data.getLast? = some '\n' := rfl
  have eA2 : defaultTplA2.data.getLast? = some '\n' := rfl
  have eA3 : defaultTplA3.data.getLast? = some '\n' := rfl
  have eB : defaultTplB.data.getLast? = some '\n' := rfl
  have eBh : defaultTplB.data.head? = some '\n' := rfl
  have eCh : defaultTplC.data.head? = some '\n' := rfl
  have eNh : noteHead.data.head? = some '\n' := rfl
  have eNl : noteSuffix.data.getLast? = some '\n' := rfl
  simp only [generateDefaultPrompt, defaultTplA, String.data_append]
  rw [containsSub_append_head pat _ defaultTplC.data '\n' eCh hnl]
  rw [containsSub_append_last pat _ _ '\n'
    (by rw [getLast?_append_ne _ _ (ne_nil_of_getLast? eB)]; exact eB) hnl]
  rw [containsSub_append_head pat _ defaultTplB.data '\n' eBh hnl]
  have hAsplit : containsSub pat
      (defaultTplA1.data ++ defaultTplA2.data ++ defaultTplA3.data ++ task.data) =
      (containsSub pat defaultTplA1.data || containsSub pat defaultTplA2.data ||
       containsSub pat defaultTplA3.data || containsSub pat task.data) := by
    rw [containsSub_append_last pat _ _ '\n'
      (by rw [getLast?_append_ne _ _ (ne_nil_of_getLast? eA3)]; exact eA3) hnl]
    rw [containsSub_append_last pat _ _ '\n'
      (by rw [getLast?_append_ne _ _ (ne_nil_of_getLast? eA2)]; exact eA2) hnl]
    rw [containsSub_append_last pat _ _ '\n' eA1 hnl]
  cases htr : truthy ct with
  | false =>
    have hnoted : (contentTypeNoteFor ct).data = [] := by
      rw [contentTypeNoteFor, htr]
      rfl
    rw [hnoted, List.append_nil, hAsplit]
  | true =>
    have hnh : (contentTypeNoteFor ct).data.head? = some '\n' := by
      rw [contentTypeNoteFor, htr]
      simp only [if_true, String.data_append]
      have h1 : noteHead.data ≠ [] := ne_nil_of_head? eNh
      have h2 : noteHead.data ++ (getContentTypeDescription (ct.getD "")).data ≠ [] := by
        intro h
        exact h1 (List.append_eq_nil.mp h).1
      rw [head?_append_ne _ _ h2, head?_append_ne _ _ h1, eNh]
    rw [containsSub_append_head pat _ _ '\n' hnh hnl, hAsplit, hnote]
    simp [Bool.or_assoc]

/-!
### Claim C1

The claim asserts that on the default-template path a non-empty caller
criteria string is included verbatim under its own criteria heading. The
handler destructures only `task`, `content`, `contentType` and
`customPrompt` from the body (`server.js:449`) and
`generateDefaultPrompt` has no criteria insertion point, so no criteria
text ever reaches the default prompt; only the omission half of the
claim holds.
-/

/-- Claim C1, counterexample: a default-path request whose body carries
the non-empty criteria string "UNIQUE-CRITERIA-TOKEN" composes exactly
the default prompt, which does not contain that criteria text anywhere —
refuting the inclusion half of the claim at a concrete input. -/
theorem c1_counterexample :
    analyze (fun _ => ⟨true, 200, "OK", ""⟩)
        ⟨"T", "W", none, none, some "UNIQUE-CRITERIA-TOKEN"⟩ =
      .composed [.text (generateDefaultPrompt "T" "W" false none)] ∧
    occursIn (generateDefaultPrompt "T" "W" false none) "UNIQUE-CRITERIA-TOKEN" =
      false := by
  constructor
  · rfl
  · rw [occursIn,
      gdp_occurs "UNIQUE-CRITERIA-TOKEN".data (by decide) "T" "W" false none
        (by decide)]
    decide

/-- Claim C1 (amended): the default path reads no criteria input — the
handler's result is unchanged under any criteria value in the request
body — and for every task and content free of the text
"EVALUATION CRITERIA" the rendered default prompt contains no
"EVALUATION CRITERIA" heading, for any image flag and any content-type
tag; in particular the omission half of the claim holds exactly (no
empty heading remains). -/
theorem c1_amended (f : String → FetchResp) (req : AnalyzeReq) (c : Option String)
    (task content : String) (isImage : Bool) (ct : Option String)
    (h1 : occursIn task "EVALUATION CRITERIA" = false)
    (h2 : occursIn content "EVALUATION CRITERIA" = false) :
    analyze f { req with criteria := c } = analyze f req ∧
    occursIn (generateDefaultPrompt task content isImage ct) "EVALUATION CRITERIA" =
      false := by
  constructor
  · cases req
    rfl
  · rw [occursIn] at h1 h2
    rw [occursIn,
      gdp_occurs "EVALUATION CRITERIA".data (by decide) task content isImage ct
        (contentTypeNote_not_contains "EVALUATION CRITERIA".data (by decide)
          (by decide) (by decide) (by decide) (by decide) (by decide) (by decide)
          (by decide) (by decide) (by decide) (by decide) (by decide) ct), h1]
    cases isImage with
    | false =>
      simp only [Bool.false_eq_true, if_false]
      rw [h2]
      decide
    | true =>
      simp only [if_true]
      decide

/-- Witness for `c1_amended` at a concrete request. -/
theorem c1_amended_witness :
    occursIn "Describe the plot" "EVALUATION CRITERIA" = false ∧
    occursIn "An essay" "EVALUATION CRITERIA" = false ∧
    (analyze (fun _ => FetchResp.mk true 200 "OK" "")
        { task := "Describe the plot", content := "An essay", contentType := none,
          customPrompt := none, criteria := some "Use the rubric" } =
      analyze (fun _ => FetchResp.mk true 200 "OK" "")
        { task := "Describe the plot", content := "An essay", contentType := none,
          customPrompt := none, criteria := none } ∧
     occursIn (generateDefaultPrompt "Describe the plot" "An essay" false none)
        "EVALUATION CRITERIA" = false) :=
  ⟨by decide, by decide,
    c1_amended (fun _ => FetchResp.mk true 200 "OK" "")
      ⟨"Describe the plot", "An essay", none, none, none⟩ (some "Use the rubric")
      "Describe the plot" "An essay" false none (by decide) (by decide)⟩

/-!
### Claim C2

The claim asserts that on the custom-template path a non-empty criteria
string replaces every `{{criteria}}` token. The handler never reads a
criteria field: `server.js:509` unconditionally replaces the token with
the empty string, and `server.js:510-511` collapse the
`### EVALUATION CRITERIA:` heading. Only the empty-criteria half of the
claim matches the code.
-/

/-- Claim C2, counterexample: with the non-empty criteria string
"Rubric A" in the request body and the custom template
"X {{criteria}} Y", the handler removes the token instead of
substituting the criteria text: the composed prompt is "X  Y" and does
not contain "Rubric A". -/
theorem c2_counterexample :
    analyze (fun _ => ⟨true, 200, "OK", ""⟩)
        ⟨"T", "W", none, some ("X " ++ criteriaTok ++ " Y"), some "Rubric A"⟩ =
      .composed [.text "X  Y"] ∧
    occursIn "X  Y" "Rubric A" = false := by
  constructor
  · rfl
  · decide

/-- Claim C2 (amended): the handler accepts no criteria input — its
result is unchanged under any criteria value in the request body — and
on the custom path every `{{criteria}}` token is removed unconditionally
while a `### EVALUATION CRITERIA:` heading followed only by blank lines
is collapsed away; in particular the template consisting of that heading,
a blank line, `{{criteria}}`, a blank line and a
`### STUDENT WORK:`/`{{content}}` section renders with the whole criteria
section gone and no dangling heading. -/
theorem c2_amended (f : String → FetchResp) (req : AnalyzeReq) (c1 c2 : Option String) :
    analyze f { req with criteria := c1 } = analyze f { req with criteria := c2 } ∧
    analyze (fun _ => ⟨true, 200, "OK", ""⟩)
        ⟨"T", "W", none,
          some ("### EVALUATION CRITERIA:\n\n" ++ criteriaTok ++
            "\n\n### STUDENT WORK:\n\n" ++ contentTok), some "Rubric A"⟩ =
      .composed [.text "### STUDENT WORK:\n\nW"] := by
  constructor
  · cases req
    rfl
  · rfl

/-!
### Claim C3

The claim asserts that the upload endpoint picks the image MIME type
from the original filename's extension. The handler picks the branch
from the original filename, but `imageToBase64` receives `req.file.path`
(`server.js:223`) — the multer temporary path — so the MIME type is
computed from the stored path's extension, and the disk storage
configured at `server.js:27-32` generates extension-less names, making
`image/jpeg` the MIME type actually produced even for `.png` uploads.
-/

/-- Claim C3, counterexample: a `photo.png` upload stored at the
extension-less temporary path `uploads/1a2b3c4d` is answered with MIME
type `image/jpeg`, not the claimed `image/png`; and the bare dotfile name
`.png` — which ends in `.png` — has no extension for `path.extname` and
is rejected as unsupported instead of being answered as an image. -/
theorem c3_counterexample :
    uploadHandler (fun _ => "") (some ⟨"uploads/1a2b3c4d", "photo.png", [1, 2, 3]⟩) =
      .ok "image" "data:image/jpeg;base64,AQID" ∧
    uploadHandler (fun _ => "") (some ⟨"uploads/1a2b3c4d", ".png", [1, 2, 3]⟩) =
      .clientError 400 "Unsupported file type" :=
  ⟨rfl, rfl⟩

/-- Claim C3 (amended): for every uploaded file whose original filename
has lowercased `path.extname` extension `.png`, `.jpg` or `.jpeg`, the
endpoint responds with type "image" and content
`data:<mime>;base64,<data>`, where `<data>` is the base64 encoding of the
file bytes and `<mime>` is determined by the extension of the STORED
TEMPORARY PATH: `.png` gives `image/png` and anything else — including
the extension-less names the configured disk storage generates — gives
`image/jpeg`. -/
theorem c3_amended (pdfExtract : List Nat → String) (f : UploadedFile)
    (h : [".png", ".jpg", ".jpeg"].contains
      (asciiLower (nodeExtname f.originalname)) = true) :
    uploadHandler pdfExtract (some f) =
      .ok "image" ("data:" ++
        (if asciiLower (nodeExtname f.path) = ".png" then "image/png"
         else "image/jpeg") ++ ";base64," ++ ⟨base64Encode f.bytes⟩) := by
  have h3 : asciiLower (nodeExtname f.originalname) = ".png" ∨
      asciiLower (nodeExtname f.originalname) = ".jpg" ∨
      asciiLower (nodeExtname f.originalname) = ".jpeg" := by
    simpa using h
  rcases h3 with he | he | he <;>
    simp [uploadHandler, imageToBase64, he, ite_self]

/-- Witness for `c3_amended`: an uppercase `.JPG` upload at an
extension-less temporary path. -/
theorem c3_amended_witness :
    [".png", ".jpg", ".jpeg"].contains (asciiLower (nodeExtname "scan.JPG")) = true ∧
    uploadHandler (fun _ => "") (some ⟨"uploads/9f8e7d", "scan.JPG", [255, 216, 255]⟩) =
      .ok "image" ("data:" ++
        (if asciiLower (nodeExtname "uploads/9f8e7d") = ".png" then "image/png"
         else "image/jpeg") ++ ";base64," ++ ⟨base64Encode [255, 216, 255]⟩) :=
  ⟨by decide,
    c3_amended (fun _ => "") ⟨"uploads/9f8e7d", "scan.JPG", [255, 216, 255]⟩ (by decide)⟩

/-!
### Claim C4
-/

/-- Characterisation of prefix matching. -/
theorem hasPrefixL_iff : ∀ (p s : List Char), hasPrefixL p s = true ↔ ∃ t, s = p ++ t
  | [], s => by simp [hasPrefixL]
  | p :: ps, [] => by
    simp [hasPrefixL]
  | p :: ps, c :: cs => by
    simp only [hasPrefixL, Bool.and_eq_true, beq_iff_eq, hasPrefixL_iff ps cs,
      List.cons_append, List.cons.injEq]
    constructor
    · rintro ⟨rfl, t, rfl⟩
      exact ⟨t, rfl, rfl⟩
    · rintro ⟨t, rfl, rfl⟩
      exact ⟨rfl, t, rfl⟩

/-- The head of what `dropWhile` leaves fails the predicate. -/
theorem head?_dropWhile_false (p : Char → Bool) : ∀ (l : List Char) (c : Char),
    (l.dropWhile p).head? = some c → p c = false
  | [], c, h => by simp at h
  | a :: l, c, h => by
    by_cases hp : p a = true
    · rw [List.dropWhile_cons, if_pos hp] at h
      exact head?_dropWhile_false p l c h
    · rw [List.dropWhile_cons, if_neg hp] at h
      obtain rfl : a = c := by simpa using h
      simpa using hp

/-- The property that a string contains `lit` immediately followed by at
least one ID-class character, i.e. that the corresponding server regex
has a match. -/
def ShapeOccurs (lit s : List Char) : Prop :=
  ∃ pre c post, s = pre ++ lit ++ c :: post ∧ isIdChar c = true

/-- Soundness of the scanner: a returned ID is a nonempty ID-class run
sitting immediately after the literal and maximal to the right. -/
theorem findShape_some : ∀ (lit s run : List Char), findShape lit s = some run →
    ∃ pre post, s = pre ++ lit ++ run ++ post ∧ run ≠ [] ∧
      (∀ c ∈ run, isIdChar c = true) ∧
      (∀ c, post.head? = some c → isIdChar c = false)
  | lit, [], run, h => by simp [findShape] at h
  | lit, a :: cs, run, h => by
    rw [findShape] at h
    by_cases hp : hasPrefixL lit (a :: cs) = true
    · rw [if_pos hp] at h
      obtain ⟨t, ht⟩ := (hasPrefixL_iff lit (a :: cs)).mp hp
      have hdrop : (a :: cs).drop lit.length = t := by
        rw [ht]
        exact List.drop_left lit t
      rw [hdrop] at h
      by_cases hr : (t.takeWhile isIdChar).isEmpty = true
      · rw [if_pos hr] at h
        obtain ⟨pre, post, heq, hne, hmem, hpost⟩ := findShape_some lit cs run h
        exact ⟨a :: pre, post, by simp [heq], hne, hmem, hpost⟩
      · rw [if_neg hr] at h
        obtain rfl : t.takeWhile isIdChar = run := by simpa using h
        refine ⟨[], t.dropWhile isIdChar, ?_, ?_, ?_, ?_⟩
        · rw [List.nil_append, ht, List.append_assoc,
            List.takeWhile_append_dropWhile]
        · intro hnil
          rw [hnil] at hr
          simp at hr
        · intro c hc
          exact List.mem_takeWhile_imp hc
        · intro c hc
          exact head?_dropWhile_false isIdChar t c hc
    · rw [if_neg hp] at h
      obtain ⟨pre, post, heq, hne, hmem, hpost⟩ := findShape_some lit cs run h
      exact ⟨a :: pre, post, by simp [heq], hne, hmem, hpost⟩

/-- Completeness of the scanner: a `none` answer means the regex has no
match anywhere in the string. -/
theorem findShape_none : ∀ (lit s : List Char), findShape lit s = none →
    ¬ ShapeOccurs lit s
  | lit, [], _ => by
    rintro ⟨pre, c, post, heq, hc⟩
    have hlen := congrArg List.length heq
    simp [List.length_append] at hlen
    omega
  | lit, a :: cs, h => by
    rintro ⟨pre, c, post, heq, hc⟩
    rw [findShape] at h
    by_cases hp : hasPrefixL lit (a :: cs) = true
    · rw [if_pos hp] at h
      by_cases hr : (((a :: cs).drop lit.length).takeWhile isIdChar).isEmpty = true
      · rw [if_pos hr] at h
        cases pre with
        | nil =>
          simp only [List.nil_append] at heq
          have hdrop : (a :: cs).drop lit.length = c :: post := by
            rw [heq]
            exact List.drop_left lit (c :: post)
          rw [hdrop, List.takeWhile_cons, hc] at hr
          simp at hr
        | cons b pre2 =>
          simp only [List.cons_append, List.cons.injEq] at heq
          exact findShape_none lit cs h ⟨pre2, c, post, heq.2, hc⟩
      · rw [if_neg hr] at h
        simp at h
    · rw [if_neg hp] at h
      cases pre with
      | nil =>
        simp only [List.nil_append] at heq
        exact hp ((hasPrefixL_iff lit (a :: cs)).mpr ⟨c :: post, heq⟩)
      | cons b pre2 =>
        simp only [List.cons_append, List.cons.injEq] at heq
        exact findShape_none lit cs h ⟨pre2, c, post, heq.2, hc⟩

/-- Claim C4, counterexample: a URL containing the presentation shape
`/presentation/d/abc123` resolves to kind document (id "xyz"), not to
kind presentation, because the document pattern is tried first
(`server.js:68-71`); this refutes the claim's presentation clause as
universally stated. -/
theorem c4_counterexample :
    occursIn "https://docs.google.com/presentation/d/abc123/edit?next=/document/d/xyz"
      "/presentation/d/abc123" = true ∧
    extractGoogleDocId
        "https://docs.google.com/presentation/d/abc123/edit?next=/document/d/xyz" =
      some ⟨"xyz", .document⟩ := by
  constructor
  · decide
  · rfl

/-- Claim C4 (amended): the resolver recognises exactly the two URL
families, with the document pattern taking precedence: the concrete
presentation URL of the claim resolves as claimed; a URL fails exactly
when neither pattern (literal followed by at least one `[A-Za-z0-9_-]`
character) matches; a document result carries a nonempty maximal
ID-class run immediately following `/document/d/`; a presentation result
is produced only when the document pattern has no match, with the same ID
rule for `/presentation/d/`; and whenever the document pattern matches,
the result is of kind document. -/
theorem c4_amended :
    extractGoogleDocId "https://docs.google.com/presentation/d/abc123/edit" =
      some ⟨"abc123", .presentation⟩ ∧
    (∀ url : String, extractGoogleDocId url = none ↔
      (¬ ShapeOccurs docLit.data url.data ∧ ¬ ShapeOccurs presLit.data url.data)) ∧
    (∀ (url : String) (docId : String),
      extractGoogleDocId url = some ⟨docId, .document⟩ →
      ∃ pre post, url.data = pre ++ docLit.data ++ docId.data ++ post ∧
        docId.data ≠ [] ∧ (∀ c ∈ docId.data, isIdChar c = true) ∧
        (∀ c, post.head? = some c → isIdChar c = false)) ∧
    (∀ (url : String) (presId : String),
      extractGoogleDocId url = some ⟨presId, .presentation⟩ →
      ¬ ShapeOccurs docLit.data url.data ∧
      ∃ pre post, url.data = pre ++ presLit.data ++ presId.data ++ post ∧
        presId.data ≠ [] ∧ (∀ c ∈ presId.data, isIdChar c = true) ∧
        (∀ c, post.head? = some c → isIdChar c = false)) ∧
    (∀ url : String, ShapeOccurs docLit.data url.data →
      ∃ docId, extractGoogleDocId url = some ⟨docId, .document⟩) := by
  refine ⟨by rfl, ?_, ?_, ?_, ?_⟩
  · intro url
    constructor
    · intro h
      rw [extractGoogleDocId] at h
      cases hd : findShape docLit.data url.data with
      | some r => rw [hd] at h; simp at h
      | none =>
        rw [hd] at h
        cases hp : findShape presLit.data url.data with
        | some r => rw [hp] at h; simp at h
        | none => exact ⟨findShape_none _ _ hd, findShape_none _ _ hp⟩
    · rintro ⟨hdoc, hpres⟩
      rw [extractGoogleDocId]
      cases hd : findShape docLit.data url.data with
      | some r =>
        obtain ⟨pre, post, heq, hne, hmem, -⟩ := findShape_some _ _ _ hd
        cases r with
        | nil => exact absurd rfl hne
        | cons c r2 =>
          exact absurd ⟨pre, c, r2 ++ post, by simp [heq], hmem c (by simp)⟩ hdoc
      | none =>
        cases hp : findShape presLit.data url.data with
        | some r =>
          obtain ⟨pre, post, heq, hne, hmem, -⟩ := findShape_some _ _ _ hp
          cases r with
          | nil => exact absurd rfl hne
          | cons c r2 =>
            exact absurd ⟨pre, c, r2 ++ post, by simp [heq], hmem c (by simp)⟩ hpres
        | none => rfl
  · intro url docId h
    rw [extractGoogleDocId] at h
    cases hd : findShape docLit.data url.data with
    | some r =>
      rw [hd] at h
      obtain rfl : (⟨r⟩ : String) = docId := by simpa using h
      simpa using findShape_some _ _ _ hd
    | none =>
      rw [hd] at h
      cases hp : findShape presLit.data url.data with
      | some r => rw [hp] at h; simp at h
      | none => rw [hp] at h; simp at h
  · intro url presId h
    rw [extractGoogleDocId] at h
    cases hd : findShape docLit.data url.data with
    | some r => rw [hd] at h; simp at h
    | none =>
      rw [hd] at h
      cases hp : findShape presLit.data url.data with
      | some r =>
        rw [hp] at h
        obtain rfl : (⟨r⟩ : String) = presId := by simpa using h
        exact ⟨findShape_none _ _ hd, by simpa using findShape_some _ _ _ hp⟩
      | none => rw [hp] at h; simp at h
  · intro url hocc
    rw [extractGoogleDocId]
    cases hd : findShape docLit.data url.data with
    | some r => exact ⟨⟨r⟩, rfl⟩
    | none => exact absurd hocc (findShape_none _ _ hd)

/-- Witness for `c4_amended`: the document-URL example of the
specification, `.../document/d/xyz/view`, resolves to kind document with
id "xyz", and the ID decomposition holds there. -/
theorem c4_amended_witness :
    extractGoogleDocId "https://docs.google.com/document/d/xyz/view" =
      some ⟨"xyz", .document⟩ ∧
    (∃ pre post,
      "https://docs.google.com/document/d/xyz/view".data =
        pre ++ docLit.data ++ "xyz".data ++ post ∧
      "xyz".data ≠ [] ∧ (∀ c ∈ "xyz".data, isIdChar c = true) ∧
      (∀ c, post.head? = some c → isIdChar c = false)) :=
  ⟨by decide,
    c4_amended.2.2.1 "https://docs.google.com/document/d/xyz/view" "xyz" (by decide)⟩

/-!
### Claims C5 and C10
-/

/-- Claim C5 (confirmed): for a recognised document link, a successful
primary 'txt' export fetch answers directly (one fetch); a non-success
primary response is retried exactly once against the 'plain' flavor (the
trace is exactly the two export URLs in order) and the call fails only if
both responses fail; for a recognised presentation link a single
non-success response fails immediately and no fallback fetch is attempted
(the trace is exactly the one export URL). -/
theorem c5_retry_behaviour (fetch : String → FetchResp) (url docId : String) :
    (extractGoogleDocId url = some ⟨docId, .document⟩ →
      ((fetch ("https://docs.google.com/document/d/" ++ docId ++
          "/export?format=txt")).ok = true →
        fetchGoogleDocsContent fetch url =
          (.ok (fetch ("https://docs.google.com/document/d/" ++ docId ++
              "/export?format=txt")).body,
            ["https://docs.google.com/document/d/" ++ docId ++
              "/export?format=txt"])) ∧
      ((fetch ("https://docs.google.com/document/d/" ++ docId ++
          "/export?format=txt")).ok = false →
        (fetch ("https://docs.google.com/document/d/" ++ docId ++
          "/export?format=plain")).ok = true →
        fetchGoogleDocsContent fetch url =
          (.ok (fetch ("https://docs.google.com/document/d/" ++ docId ++
              "/export?format=plain")).body,
            ["https://docs.google.com/document/d/" ++ docId ++ "/export?format=txt",
             "https://docs.google.com/document/d/" ++ docId ++
               "/export?format=plain"])) ∧
      ((fetch ("https://docs.google.com/document/d/" ++ docId ++
          "/export?format=txt")).ok = false →
        (fetch ("https://docs.google.com/document/d/" ++ docId ++
          "/export?format=plain")).ok = false →
        ∃ e, fetchGoogleDocsContent fetch url =
          (.error e,
            ["https://docs.google.com/document/d/" ++ docId ++ "/export?format=txt",
             "https://docs.google.com/document/d/" ++ docId ++
               "/export?format=plain"]))) ∧
    (extractGoogleDocId url = some ⟨docId, .presentation⟩ →
      (fetch ("https://docs.google.com/presentation/d/" ++ docId ++
        "/export?format=txt")).ok = false →
      ∃ e, fetchGoogleDocsContent fetch url =
        (.error e,
          ["https://docs.google.com/presentation/d/" ++ docId ++
            "/export?format=txt"])) := by
  constructor
  · intro h
    refine ⟨?_, ?_, ?_⟩
    · intro hok
      rw [fetchGoogleDocsContent, h]
      simp [hok]
    · intro h1 h2
      rw [fetchGoogleDocsContent, h]
      simp [h1, h2]
    · intro h1 h2
      rw [fetchGoogleDocsContent, h]
      simp [h1, h2]
  · intro h hbad
    rw [fetchGoogleDocsContent, h]
    simp [hbad]

/-- Witness for `c5_retry_behaviour`: a document link with both export
fetches failing (trace shows exactly one retry), and a presentation link
with a failing fetch (trace shows no fallback). -/
theorem c5_retry_behaviour_witness :
    extractGoogleDocId "https://docs.google.com/document/d/abc/edit" =
      some ⟨"abc", DocKind.document⟩ ∧
    (∃ e, fetchGoogleDocsContent (fun _ => ⟨false, 404, "Not Found", ""⟩)
        "https://docs.google.com/document/d/abc/edit" =
      (.error e, ["https://docs.google.com/document/d/" ++ "abc" ++ "/export?format=txt",
                  "https://docs.google.com/document/d/" ++ "abc" ++
                    "/export?format=plain"])) ∧
    extractGoogleDocId "https://docs.google.com/presentation/d/p1/edit" =
      some ⟨"p1", DocKind.presentation⟩ ∧
    (∃ e, fetchGoogleDocsContent (fun _ => ⟨false, 404, "Not Found", ""⟩)
        "https://docs.google.com/presentation/d/p1/edit" =
      (.error e, ["https://docs.google.com/presentation/d/" ++ "p1" ++
        "/export?format=txt"])) :=
  ⟨by decide,
   ((c5_retry_behaviour (fun _ => ⟨false, 404, "Not Found", ""⟩)
      "https://docs.google.com/document/d/abc/edit" "abc").1 (by decide)).2.2 rfl rfl,
   by decide,
   (c5_retry_behaviour (fun _ => ⟨false, 404, "Not Found", ""⟩)
      "https://docs.google.com/presentation/d/p1/edit" "p1").2 (by decide) rfl⟩

/-- Claim C10 (confirmed): when both the primary and the fallback export
fetches of a document link fail, the error message interpolates the
status and statusText of the FIRST (primary) response; the fallback
response's fields do not appear in the message. -/
theorem c10_first_status (fetch : String → FetchResp) (url docId : String)
    (h : extractGoogleDocId url = some ⟨docId, .document⟩)
    (h1 : (fetch ("https://docs.google.com/document/d/" ++ docId ++
      "/export?format=txt")).ok = false)
    (h2 : (fetch ("https://docs.google.com/document/d/" ++ docId ++
      "/export?format=plain")).ok = false) :
    (fetchGoogleDocsContent fetch url).1 =
      .error ("Failed to fetch Google Docs/Slides content: " ++
        "Failed to fetch document content: " ++
        toString (fetch ("https://docs.google.com/document/d/" ++ docId ++
          "/export?format=txt")).status ++ " " ++
        (fetch ("https://docs.google.com/document/d/" ++ docId ++
          "/export?format=txt")).statusText) := by
  rw [fetchGoogleDocsContent, h]
  simp [h1, h2]

/-- Witness for `c10_first_status`: with a 404/Not Found primary response
and a 500/Server Error fallback response, the message carries 404. -/
theorem c10_first_status_witness :
    (fetchGoogleDocsContent
        (fun u => if u = "https://docs.google.com/document/d/abc/export?format=txt"
          then ⟨false, 404, "Not Found", ""⟩ else ⟨false, 500, "Server Error", ""⟩)
        "https://docs.google.com/document/d/abc/edit").1 =
      .error ("Failed to fetch Google Docs/Slides content: " ++
        "Failed to fetch document content: " ++ "404" ++ " " ++ "Not Found") :=
  c10_first_status
    (fun u => if u = "https://docs.google.com/document/d/abc/export?format=txt"
      then ⟨false, 404, "Not Found", ""⟩ else ⟨false, 500, "Server Error", ""⟩)
    "https://docs.google.com/document/d/abc/edit" "abc" (by decide) (by decide)
    (by decide)

/-!
### Claim C6
-/

/-- Characterisation of substring occurrence as a three-way split. -/
theorem containsSub_iff : ∀ (pat s : List Char),
    containsSub pat s = true ↔ ∃ a b, s = a ++ pat ++ b
  | pat, [] => by
    constructor
    · intro h
      cases pat with
      | nil => exact ⟨[], [], rfl⟩
      | cons p ps => simp [containsSub, hasPrefixL] at h
    · rintro ⟨a, b, hab⟩
      have hlen := congrArg List.length hab
      simp only [List.length_nil, List.length_append] at hlen
      have hp : pat = [] := List.length_eq_zero.mp (by omega)
      rw [hp]
      exact containsSub_nil_pat []
  | pat, c :: cs => by
    simp only [containsSub, Bool.or_eq_true, hasPrefixL_iff, containsSub_iff pat cs]
    constructor
    · rintro (⟨t, ht⟩ | ⟨a, b, hab⟩)
      · exact ⟨[], t, by simpa using ht⟩
      · exact ⟨c :: a, b, by simp [hab]⟩
    · rintro ⟨a, b, hab⟩
      cases a with
      | nil => exact Or.inl ⟨b, by simpa using hab⟩
      | cons d a2 =>
        simp only [List.cons_append, List.cons.injEq] at hab
        exact Or.inr ⟨a2, b, hab.2⟩

/-- Occurrence is transitive along substring containment. -/
theorem containsSub_mono (pat mid s : List Char) (h1 : containsSub pat mid = true)
    (h2 : containsSub mid s = true) : containsSub pat s = true := by
  obtain ⟨a, b, hm⟩ := (containsSub_iff pat mid).mp h1
  obtain ⟨x, y, hs⟩ := (containsSub_iff mid s).mp h2
  refine (containsSub_iff pat s).mpr ⟨x ++ a, b ++ y, ?_⟩
  rw [hs, hm]
  simp [List.append_assoc]

/-- A first-occurrence insertion splits the string at the leftmost
occurrence of the pattern and leaves everything else unchanged. -/
theorem insBefore_split : ∀ (pat ins s : List Char), pat ≠ [] →
    containsSub pat s = true →
    ∃ a b, s = a ++ pat ++ b ∧ insBeforeAux pat ins s = a ++ ins ++ pat ++ b ∧
      (∀ a2 b2, s = a2 ++ pat ++ b2 → a.length ≤ a2.length)
  | pat, ins, [], hne, hocc => by
    rw [containsSub_nil_of_ne pat hne] at hocc
    simp at hocc
  | pat, ins, c :: cs, hne, hocc => by
    by_cases hp : hasPrefixL pat (c :: cs) = true
    · obtain ⟨t, ht⟩ := (hasPrefixL_iff pat (c :: cs)).mp hp
      refine ⟨[], t, by simpa using ht, ?_, fun a2 b2 h2 => by simp⟩
      rw [insBeforeAux]
      have hcond : (!pat.isEmpty && hasPrefixL pat (c :: cs)) = true := by
        simp [hp, List.isEmpty_eq_true, hne]
      rw [if_pos hcond, ht]
      simp
    · have hocc2 : containsSub pat cs = true := by
        have : containsSub pat (c :: cs) =
            (hasPrefixL pat (c :: cs) || containsSub pat cs) := rfl
        rw [this] at hocc
        simpa [hp] using hocc
      obtain ⟨a, b, heq, hres, hmin⟩ := insBefore_split pat ins cs hne hocc2
      refine ⟨c :: a, b, by simp [heq], ?_, ?_⟩
      · rw [insBeforeAux]
        have hcond : (!pat.isEmpty && hasPrefixL pat (c :: cs)) = false := by
          simp [hp]
        rw [if_neg (by simp [hcond, hp]), hres]
        simp
      · intro a2 b2 h2
        cases a2 with
        | nil =>
          exact absurd ((hasPrefixL_iff pat (c :: cs)).mpr ⟨b2, by simpa using h2⟩) hp
        | cons d a3 =>
          simp only [List.cons_append, List.cons.injEq] at h2
          simpa using Nat.succ_le_succ (hmin a3 b2 h2.2)

/-- With no occurrence of the pattern, the insertion is the identity. -/
theorem insBefore_of_not : ∀ (pat ins s : List Char), containsSub pat s = false →
    insBeforeAux pat ins s = s
  | pat, ins, [], _ => rfl
  | pat, ins, c :: cs, h => by
    have hd : containsSub pat (c :: cs) =
        (hasPrefixL pat (c :: cs) || containsSub pat cs) := rfl
    rw [hd] at h
    simp only [Bool.or_eq_false_iff] at h
    rw [insBeforeAux, if_neg (by simp [h.1]), insBefore_of_not pat ins cs h.2]

/-- Claim C6, counterexample: a custom template that contains the bare
substring "STUDENT WORK" but not the exact `### STUDENT WORK:` heading,
together with the `{{content}}` token and a present content-type tag,
gets NO disclosure note at all: the condition at `server.js:536` checks
the substring, so the `{{content}}` fallback branch is never reached and
the heading replacement matches nothing. The claim requires the note
before `{{content}}` here. -/
theorem c6_counterexample :
    analyze (fun _ => ⟨true, 200, "OK", ""⟩)
        ⟨"T", "W", some "pdf", some ("STUDENT WORK\n" ++ contentTok), none⟩ =
      .composed [.text "STUDENT WORK\nW"] ∧
    occursIn "STUDENT WORK\nW" (contentTypeNoteFor (some "pdf")) = false :=
  ⟨rfl, by decide⟩

/-- Claim C6 (amended): with a nonempty disclosure note, the note is
inserted immediately before the FIRST exact `### STUDENT WORK:` heading
whenever one is present in the (criteria-stripped) template; when the
template contains no occurrence of the substring "STUDENT WORK" at all
but contains `{{content}}`, the note is inserted immediately before the
first `{{content}}` token; and when the template contains the substring
"STUDENT WORK" but not the exact heading, no note is inserted anywhere. -/
theorem c6_amended (note p : String) (hnote : note.isEmpty = false) :
    (occursIn p "### STUDENT WORK:" = true →
      ∃ a b, p.data = a ++ "### STUDENT WORK:".data ++ b ∧
        (insertNote note p).data = a ++ note.data ++ "### STUDENT WORK:".data ++ b ∧
        (∀ a2 b2, p.data = a2 ++ "### STUDENT WORK:".data ++ b2 →
          a.length ≤ a2.length)) ∧
    (occursIn p "STUDENT WORK" = false → occursIn p contentTok = true →
      ∃ a b, p.data = a ++ contentTok.data ++ b ∧
        (insertNote note p).data = a ++ note.data ++ contentTok.data ++ b ∧
        (∀ a2 b2, p.data = a2 ++ contentTok.data ++ b2 → a.length ≤ a2.length)) ∧
    (occursIn p "STUDENT WORK" = true → occursIn p "### STUDENT WORK:" = false →
      insertNote note p = p) := by
  refine ⟨?_, ?_, ?_⟩
  · intro h
    have hsw : occursIn p "STUDENT WORK" = true :=
      containsSub_mono "STUDENT WORK".data "### STUDENT WORK:".data p.data
        (by decide) h
    have hin : insertNote note p = insertBeforeFirst p "### STUDENT WORK:" note := by
      rw [insertNote, if_pos (by simp [hnote, hsw])]
    rw [hin]
    exact insBefore_split "### STUDENT WORK:".data note.data p.data (by decide) h
  · intro hno hct
    have hin : insertNote note p = insertBeforeFirst p contentTok note := by
      rw [insertNote, if_neg (by simp [hno]), if_pos (by simp [hnote, hct])]
    rw [hin]
    exact insBefore_split contentTok.data note.data p.data (by decide) hct
  · intro hsw hno
    have hin : insertNote note p = insertBeforeFirst p "### STUDENT WORK:" note := by
      rw [insertNote, if_pos (by simp [hnote, hsw])]
    rw [hin]
    show (⟨insBeforeAux "### STUDENT WORK:".data note.data p.data⟩ : String) = p
    rw [insBefore_of_not "### STUDENT WORK:".data note.data p.data hno]

/-- Witness for `c6_amended`: the pdf disclosure note and a template with
an exact heading. -/
theorem c6_amended_witness :
    (contentTypeNoteFor (some "pdf")).isEmpty = false ∧
    ((occursIn "### STUDENT WORK:\nrest" "### STUDENT WORK:" = true →
      ∃ a b, "### STUDENT WORK:\nrest".data = a ++ "### STUDENT WORK:".data ++ b ∧
        (insertNote (contentTypeNoteFor (some "pdf")) "### STUDENT WORK:\nrest").data =
          a ++ (contentTypeNoteFor (some "pdf")).data ++
            "### STUDENT WORK:".data ++ b ∧
        (∀ a2 b2, "### STUDENT WORK:\nrest".data =
          a2 ++ "### STUDENT WORK:".data ++ b2 → a.length ≤ a2.length)) ∧
    (occursIn "### STUDENT WORK:\nrest" "STUDENT WORK" = false →
      occursIn "### STUDENT WORK:\nrest" contentTok = true →
      ∃ a b, "### STUDENT WORK:\nrest".data = a ++ contentTok.data ++ b ∧
        (insertNote (contentTypeNoteFor (some "pdf")) "### STUDENT WORK:\nrest").data =
          a ++ (contentTypeNoteFor (some "pdf")).data ++ contentTok.data ++ b ∧
        (∀ a2 b2, "### STUDENT WORK:\nrest".data = a2 ++ contentTok.data ++ b2 →
          a.length ≤ a2.length)) ∧
    (occursIn "### STUDENT WORK:\nrest" "STUDENT WORK" = true →
      occursIn "### STUDENT WORK:\nrest" "### STUDENT WORK:" = false →
      insertNote (contentTypeNoteFor (some "pdf")) "### STUDENT WORK:\nrest" =
        "### STUDENT WORK:\nrest")) :=
  ⟨by decide,
    c6_amended (contentTypeNoteFor (some "pdf")) "### STUDENT WORK:\nrest" (by decide)⟩

/-!
### Claim C7
-/

/-- Claim C7 (confirmed): the custom path factors as template-only
preprocessing (criteria removal, heading collapse and note insertion,
none of which receive the task or content text) followed by the
`{{task}}`/`{{content}}` substitutions; consequently the heading/token
detection sees only template-derived text. The second conjunct
demonstrates it: with a template holding only the two tokens and a task
that IS the literal heading text, the note lands before `{{content}}` in
the template, not before the heading text arriving via the task. -/
theorem c7_substitution_order :
    (∀ (cp task content : String) (isImage : Bool) (ct : Option String),
      processCustomPrompt cp task content isImage ct =
        substTokens (preprocessTemplate cp (contentTypeNoteFor ct)) task
          (if isImage then imagePlaceholder else content)) ∧
    processCustomPrompt (taskTok ++ " " ++ contentTok) "### STUDENT WORK:" "W"
        false (some "pdf") =
      "### STUDENT WORK:" ++ " " ++ contentTypeNoteFor (some "pdf") ++ "W" := by
  constructor
  · intro cp task content isImage ct
    rfl
  · rfl

/-!
### Claim C8
-/

/-- A replacement string without a dollar expands to itself. -/
theorem expandRepl_no_dollar : ∀ (r matched before after : List Char),
    ('$' : Char) ∉ r → expandRepl matched before after r = r
  | [], _, _, _, _ => rfl
  | [c], _, _, _, _ => rfl
  | c :: d :: r, matched, before, after, h => by
    have hc : (c == '$') = false := by
      simp only [beq_eq_false_iff_ne]
      rintro rfl
      exact h (List.mem_cons_self _ _)
    rw [expandRepl, if_neg (by simp [hc])]
    rw [expandRepl_no_dollar (d :: r) matched before after
      fun hm => h (List.mem_cons_of_mem _ hm)]

/-- With a dollar-free replacement, the JavaScript replace scan agrees
with plain literal replacement. -/
theorem replAllAux_eq_plain (pat repl orig : List Char)
    (h : ('$' : Char) ∉ repl) : ∀ (fuel i : Nat) (s : List Char),
    replAllAux pat repl orig fuel i s = plainReplAux pat repl fuel s
  | 0, _, _ => rfl
  | fuel + 1, i, [] => rfl
  | fuel + 1, i, c :: cs => by
    rw [replAllAux, plainReplAux]
    by_cases hp : (!pat.isEmpty && hasPrefixL pat (c :: cs)) = true
    · rw [if_pos hp, if_pos hp, expandRepl_no_dollar repl _ _ _ h,
        replAllAux_eq_plain pat repl orig h fuel (i + pat.length)
          (List.drop (pat.length - 1) cs)]
    · rw [if_neg hp, if_neg hp,
        replAllAux_eq_plain pat repl orig h fuel (i + 1) cs]

/-- Claim C8, counterexample: a task text containing the JavaScript
replacement pattern `$&` is not substituted verbatim: `$&` re-expands to
the matched token, so the composed prompt still contains a `{{task}}`
occurrence and differs from the claimed verbatim substitution. -/
theorem c8_counterexample :
    analyze (fun _ => ⟨true, 200, "OK", ""⟩)
        ⟨"$&", "Great", none, some (taskTok ++ " and " ++ contentTok), none⟩ =
      .composed [.text (taskTok ++ " and Great")] ∧
    occursIn (taskTok ++ " and Great") taskTok = true ∧
    (taskTok ++ " and Great") ≠ "$& and Great" :=
  ⟨rfl, by decide, by decide⟩

/-- Claim C8 (amended): the substitutions are sequential global replaces
with JavaScript replacement-string semantics; whenever the task and
content texts contain no dollar character they are substituted verbatim
at every occurrence (`{{task}}` first, then `{{content}}`), and the
claim's concrete round trip holds: a template holding only the two
tokens with task "Essay 1" and content "Great work" composes to
"Essay 1 Great work" with zero remaining tokens. -/
theorem c8_amended (tpl task content : String)
    (h1 : ('$' : Char) ∉ task.data) (h2 : ('$' : Char) ∉ content.data) :
    substTokens tpl task content =
      plainReplaceAll (plainReplaceAll tpl taskTok task) contentTok content ∧
    analyze (fun _ => ⟨true, 200, "OK", ""⟩)
        ⟨"Essay 1", "Great work", none, some (taskTok ++ " " ++ contentTok), none⟩ =
      .composed [.text "Essay 1 Great work"] ∧
    occursIn "Essay 1 Great work" taskTok = false ∧
    occursIn "Essay 1 Great work" contentTok = false := by
  refine ⟨?_, rfl, by decide, by decide⟩
  rw [substTokens, jsReplaceAll, jsReplaceAll, plainReplaceAll, plainReplaceAll,
    replAllAux_eq_plain taskTok.data task.data tpl.data h1,
    replAllAux_eq_plain contentTok.data content.data _ h2]

/-- Witness for `c8_amended`. -/
theorem c8_amended_witness :
    ('$' : Char) ∉ "A".data ∧ ('$' : Char) ∉ "B".data ∧
    (substTokens (taskTok ++ contentTok) "A" "B" =
      plainReplaceAll (plainReplaceAll (taskTok ++ contentTok) taskTok "A")
        contentTok "B" ∧
    analyze (fun _ => ⟨true, 200, "OK", ""⟩)
        ⟨"Essay 1", "Great work", none, some (taskTok ++ " " ++ contentTok), none⟩ =
      .composed [.text "Essay 1 Great work"] ∧
    occursIn "Essay 1 Great work" taskTok = false ∧
    occursIn "Essay 1 Great work" contentTok = false) :=
  ⟨by decide, by decide,
    c8_amended (taskTok ++ contentTok) "A" "B" (by decide) (by decide)⟩

/-!
### Claim C9
-/

/-- Claim C9 (confirmed): content beginning with `data:image` is treated
as an image. For the concrete content `data:image/png;base64,AAAA` the
composed request carries the instruction text and a separate inline-image
part with MIME type `image/png` and base64 data `AAAA`; the instruction
text contains the image placeholder sentence and not the raw data. For
every request whose content begins with `data:image` (and is not a Google
Docs link) but does not match the full data-URI pattern, the handler
fails with the invalid-image-format error. -/
theorem c9_image_parts :
    (analyze (fun _ => ⟨true, 200, "OK", ""⟩)
        ⟨"T", "data:image/png;base64,AAAA", none, none, none⟩ =
      .composed
        [.text (generateDefaultPrompt "T" "data:image/png;base64,AAAA" true
          (some "image")),
         .inlineData "image/png" "AAAA"]) ∧
    occursIn (generateDefaultPrompt "T" "data:image/png;base64,AAAA" true
      (some "image")) imagePlaceholder = true ∧
    occursIn (generateDefaultPrompt "T" "data:image/png;base64,AAAA" true
      (some "image")) "AAAA" = false ∧
    (∀ (f : String → FetchResp) (req : AnalyzeReq),
      req.task.isEmpty = false → req.content.isEmpty = false →
      occursIn req.content "docs.google.com" = false →
      hasPrefixL "data:image".data req.content.data = true →
      parseImageDataUri req.content = none →
      analyze f req = .clientError 400 "Invalid image format") := by
  refine ⟨rfl, ?_, ?_, ?_⟩
  · rw [occursIn,
      gdp_occurs imagePlaceholder.data (by decide) "T" "data:image/png;base64,AAAA"
        true (some "image") (by decide)]
    decide
  · rw [occursIn,
      gdp_occurs "AAAA".data (by decide) "T" "data:image/png;base64,AAAA"
        true (some "image") (by decide)]
    decide
  · intro f req htask hcontent hdocs himg hnone
    rw [analyze, if_neg (by simp [htask, hcontent])]
    simp [hdocs, himg, hnone]

/-- Witness for `c9_image_parts`: content `data:image` starts with the
image prefix but fails the full data-URI pattern, so the request is
answered with the invalid-image-format error. -/
theorem c9_image_parts_witness :
    ("T" : String).isEmpty = false ∧ ("data:image" : String).isEmpty = false ∧
    occursIn "data:image" "docs.google.com" = false ∧
    hasPrefixL "data:image".data ("data:image" : String).data = true ∧
    parseImageDataUri "data:image" = none ∧
    analyze (fun _ => ⟨true, 200, "OK", ""⟩) ⟨"T", "data:image", none, none, none⟩ =
      .clientError 400 "Invalid image format" :=
  ⟨by decide, by decide, by decide, by decide, by decide,
    c9_image_parts.2.2.2 (fun _ => ⟨true, 200, "OK", ""⟩)
      ⟨"T", "data:image", none, none, none⟩ (by decide) (by decide) (by decide)
      (by decide) (by decide)⟩
